import Mathlib

set_option maxHeartbeats 1600000

/-!
Verification development for the storacha-chainlink bounty marketplace core:
the EscrowManager, BountyRegistry, DataRegistry and FunctionsConsumer contracts
(packages/contracts/contracts), and the Chainlink Functions verification
routine (packages/functions/src/source.js).

Modelling conventions: addresses, amounts and timestamps are Nat (address 0 is
the zero address; Solidity 0.8 checked arithmetic reverts on overflow, so every
non-reverting execution agrees with plain Nat arithmetic); Solidity mappings
are association lists with first-match lookup; a reverting call is an
`Except.error`, and the caller state is kept unchanged (EVM revert semantics);
the success of a low-level value transfer is an explicit `transferOk` input.
-/

/-- Association-list lookup, modelling a Solidity `mapping(uint256 => T)` read
(`none` plays the role of the zero-initialised default). -/
def alookup {α : Type} (l : List (Nat × α)) (k : Nat) : Option α :=
  (l.find? (fun p => p.1 == k)).map (fun p => p.2)

/-- Association-list write, modelling a Solidity mapping assignment: replace
the first entry with the key when present, append the entry otherwise. -/
def aset {α : Type} (l : List (Nat × α)) (k : Nat) (v : α) : List (Nat × α) :=
  match l with
  | [] => [(k, v)]
  | p :: rest => if p.1 == k then (k, v) :: rest else p :: aset rest k v

theorem alookup_aset {α : Type} (l : List (Nat × α)) (k j : Nat) (v : α) :
    alookup (aset l k v) j = if j = k then some v else alookup l j := by
  induction l with
  | nil =>
    by_cases h : j = k
    · subst h; simp [aset, alookup, List.find?]
    · have hb : (k == j) = false := beq_eq_false_iff_ne.mpr (Ne.symm h)
      simp [aset, alookup, List.find?, hb, h]
  | cons p rest ih =>
    by_cases hp : p.1 = k
    · by_cases h : j = k
      · subst h
        simp [aset, alookup, List.find?, hp]
      · have hb : (k == j) = false := beq_eq_false_iff_ne.mpr (Ne.symm h)
        have hb2 : (p.1 == j) = false := by rw [hp]; exact hb
        simp [aset, alookup, List.find?, hp, hb, hb2, h]
    · have hpb : (p.1 == k) = false := beq_eq_false_iff_ne.mpr hp
      by_cases hj : p.1 = j
      · have hjk : ¬ (j = k) := fun hh => hp (hj.trans hh)
        simp [aset, alookup, List.find?, hpb, hj, hjk]
      · have hjb : (p.1 == j) = false := beq_eq_false_iff_ne.mpr hj
        simpa [aset, alookup, List.find?, hpb, hjb] using ih

theorem mem_aset {α : Type} {l : List (Nat × α)} {k : Nat} {v : α} {p : Nat × α}
    (h : p ∈ aset l k v) : p = (k, v) ∨ p ∈ l := by
  induction l with
  | nil => simpa [aset] using h
  | cons q rest ih =>
    simp only [aset] at h
    by_cases hq : q.1 = k
    · simp only [hq, beq_self_eq_true, if_true, List.mem_cons] at h
      rcases h with h | h
      · exact Or.inl h
      · exact Or.inr (List.mem_cons_of_mem _ h)
    · have hqb : (q.1 == k) = false := beq_eq_false_iff_ne.mpr hq
      simp only [hqb, Bool.false_eq_true, if_false, List.mem_cons] at h
      rcases h with h | h
      · exact Or.inr (by simp [h])
      · rcases ih h with h1 | h1
        · exact Or.inl h1
        · exact Or.inr (List.mem_cons_of_mem _ h1)

/-! ## JSON values and the embedded schema validator (packages/functions/src/source.js)

JSON documents fetched from IPFS gateways.  Numbers are modelled as rationals
(JSON numerals are finite decimals; the JavaScript float approximation is not
modelled).  Objects keep their key order, matching `JSON.stringify` equality
on JavaScript objects with unique keys. -/

inductive Json where
  | null : Json
  | bool (b : Bool) : Json
  | num (q : Rat) : Json
  | str (s : String) : Json
  | arr (xs : List Json) : Json
  | obj (kvs : List (String × Json)) : Json
deriving Repr

mutual

/-- Structural equality of JSON values, modelling the
`JSON.stringify(a) === JSON.stringify(b)` comparison used by the validator
for `enum` and `const` (stringify is injective on JSON values, with object
key order preserved). -/
def Json.beq : Json → Json → Bool
  | .null, .null => true
  | .bool a, .bool b => a == b
  | .num a, .num b => a == b
  | .str a, .str b => a == b
  | .arr xs, .arr ys => beqJsonList xs ys
  | .obj xs, .obj ys => beqJsonKvs xs ys
  | _, _ => false

/-- Elementwise `Json.beq` on lists. -/
def beqJsonList : List Json → List Json → Bool
  | [], [] => true
  | x :: xs, y :: ys => Json.beq x y && beqJsonList xs ys
  | _, _ => false

/-- Elementwise `Json.beq` on key/value lists. -/
def beqJsonKvs : List (String × Json) → List (String × Json) → Bool
  | [], [] => true
  | (k1, v1) :: xs, (k2, v2) :: ys => k1 == k2 && Json.beq v1 v2 && beqJsonKvs xs ys
  | _, _ => false

end

/-- JavaScript truthiness of a JSON value (`if (schema.type)` etc.). -/
def Json.truthy : Json → Bool
  | .null => false
  | .bool b => b
  | .num q => !(q == 0)
  | .str s => !(s == "")
  | .arr _ => true
  | .obj _ => true

/-- The `getType` helper of source.js: `null`, arrays, then `typeof`. -/
def Json.getType : Json → String
  | .null => "null"
  | .arr _ => "array"
  | .bool _ => "boolean"
  | .num _ => "number"
  | .str _ => "string"
  | .obj _ => "object"

/-- Property read on a JSON object (`schema.type`, `key in data`, ...):
`none` models the absent/`undefined` case. -/
def jget (kvs : List (String × Json)) (k : String) : Option Json :=
  (kvs.find? (fun p => p.1 == k)).map (fun p => p.2)

/-! The recursive JSON-Schema validator `validate(data, schema)` of source.js.
The source body is a sequence of constraint sections in source order (type,
enum, const, number, string, array, object), each an early-`return false`
check, rendered here as `&&` of one definition per section.  `rt pattern s`
stands for JavaScript `new RegExp(pattern).test(s)` (the regex engine is a
parameter of the model).  JavaScript coercion corners that the source never
exercises are modelled as skipped checks: numeric bounds and length bounds
compare only when the schema bound is itself a number, and a non-string
`pattern` or `required` entry and a truthy non-object `properties` are
skipped.  The per-key `properties` loop is folded over the data's keys
instead of the schema's keys, which is equivalent since JavaScript object
keys are unique. -/

/-- The `schema.type` section of `validate` (with the "integer" refinement
of number). -/
def typeConstraintOk (data : Json) (skvs : List (String × Json)) : Bool :=
  match jget skvs "type" with
  | some t =>
    if t.truthy then
      if Json.beq t (.str "integer") then
        match data with
        | .num q => q.den == 1
        | _ => false
      else Json.beq (.str data.getType) t
    else true
  | none => true

/-- The `schema.enum` section of `validate`. -/
def enumConstraintOk (data : Json) (skvs : List (String × Json)) : Bool :=
  match jget skvs "enum" with
  | some (.arr vs) => vs.any (fun v => Json.beq v data)
  | _ => true

/-- The `schema.const` section of `validate`. -/
def constConstraintOk (data : Json) (skvs : List (String × Json)) : Bool :=
  match jget skvs "const" with
  | some c => Json.beq data c
  | none => true

/-- The number-constraints section of `validate` (applicable when the data is
a number). -/
def numericBoundsOk (data : Json) (skvs : List (String × Json)) : Bool :=
  match data with
  | .num q =>
    (match jget skvs "minimum" with
     | some (.num m) => !(decide (q < m))
     | _ => true)
    &&
    (match jget skvs "maximum" with
     | some (.num m) => !(decide (m < q))
     | _ => true)
  | _ => true

/-- The string-constraints section of `validate` (applicable when the data is
a string): minLength, maxLength, pattern. -/
def stringConstraintsOk (rt : String → String → Bool) (data : Json)
    (skvs : List (String × Json)) : Bool :=
  match data with
  | .str s =>
    (match jget skvs "minLength" with
     | some (.num m) => !(decide ((s.length : Rat) < m))
     | _ => true)
    &&
    (match jget skvs "maxLength" with
     | some (.num m) => !(decide (m < (s.length : Rat)))
     | _ => true)
    &&
    (match jget skvs "pattern" with
     | some p => if p.truthy then (match p with | .str ps => rt ps s | _ => true) else true
     | none => true)
  | _ => true

/-- The array length bounds of the array-constraints section of `validate`
(applicable when the data is an array): minItems, maxItems. -/
def arrayLenOk (data : Json) (skvs : List (String × Json)) : Bool :=
  match data with
  | .arr xs =>
    (match jget skvs "minItems" with
     | some (.num m) => !(decide ((xs.length : Rat) < m))
     | _ => true)
    &&
    (match jget skvs "maxItems" with
     | some (.num m) => !(decide (m < (xs.length : Rat)))
     | _ => true)
  | _ => true

/-- The required-keys check of the object-constraints section of `validate`:
every `required` entry must be a present key of the data object. -/
def requiredKeysOk (data : Json) (skvs : List (String × Json)) : Bool :=
  match data with
  | .obj dkvs =>
    (match jget skvs "required" with
     | some (.arr req) =>
       req.all (fun k => match k with | .str ks => (jget dkvs ks).isSome | _ => false)
     | _ => true)
  | _ => true

/-- The `additionalProperties: false` check of the object-constraints section
of `validate`: every data key must be declared in `schema.properties`. -/
def closedKeySetOk (data : Json) (skvs : List (String × Json)) : Bool :=
  match data with
  | .obj dkvs =>
    (match jget skvs "additionalProperties", jget skvs "properties" with
     | some (.bool false), some props =>
       if props.truthy then
         (match props with
          | .obj pkvs => dkvs.all (fun q => pkvs.any (fun r => r.1 == q.1))
          | _ => true)
       else true
     | _, _ => true)
  | _ => true

mutual

/-- The `schema.items` loop of the array-constraints section of `validate`:
every element of the array data must recursively validate against the item
schema. -/
def itemsOk (rt : String → String → Bool) (data : Json)
    (skvs : List (String × Json)) : Bool :=
  match data with
  | .arr xs =>
    (match jget skvs "items" with
     | some its => if its.truthy then validateItems rt xs its else true
     | none => true)
  | _ => true

/-- The `schema.properties` loop of the object-constraints section of
`validate`: every present data key with a per-key schema must recursively
validate against it. -/
def propertiesOk (rt : String → String → Bool) (data : Json)
    (skvs : List (String × Json)) : Bool :=
  match data with
  | .obj dkvs =>
    (match jget skvs "properties" with
     | some props =>
       if props.truthy then
         (match props with
          | .obj pkvs => validateProps rt dkvs pkvs
          | _ => true)
       else true
     | none => true)
  | _ => true

/-- Iteration of the `schema.items` loop over the array elements. -/
def validateItems (rt : String → String → Bool) (xs : List Json) (its : Json) : Bool :=
  match xs with
  | [] => true
  | x :: rest => validate rt x its && validateItems rt rest its

/-- Iteration of the `schema.properties` loop over the data keys. -/
def validateProps (rt : String → String → Bool) (dkvs pkvs : List (String × Json)) : Bool :=
  match dkvs with
  | [] => true
  | (k, v) :: rest =>
    (match jget pkvs k with
     | some ps => validate rt v ps
     | none => true)
    && validateProps rt rest pkvs

/-- The validator `validate(data, schema)` of source.js: a non-object schema
accepts everything; an object schema accepts exactly when every section in
source order accepts. -/
def validate (rt : String → String → Bool) (data schema : Json) : Bool :=
  match schema with
  | .obj skvs =>
    typeConstraintOk data skvs && enumConstraintOk data skvs
      && constConstraintOk data skvs && numericBoundsOk data skvs
      && stringConstraintsOk rt data skvs
      && (arrayLenOk data skvs && itemsOk rt data skvs)
      && (requiredKeysOk data skvs && propertiesOk rt data skvs
            && closedKeySetOk data skvs)
  | _ => true

end

/-! Spec-side reading of the validator: the spec lists the constraint families
(type with the integer refinement, enum, const, numeric bounds, string
length/pattern, array length/items, object required keys/per-key shapes/closed
key set) and says a document is accepted exactly when every applicable
constraint is satisfied at every level.  The two recursive families are stated
below with their recursion written as `List.all` of `validate` over the
sub-documents. -/

/-- Array constraint family: length bounds and, recursively, the per-item
shape for every element. -/
def arrayConstraintsOk (rt : String → String → Bool) (data : Json)
    (skvs : List (String × Json)) : Bool :=
  arrayLenOk data skvs &&
  (match data with
   | .arr xs =>
     (match jget skvs "items" with
      | some its => if its.truthy then xs.all (fun x => validate rt x its) else true
      | none => true)
   | _ => true)

/-- Object constraint family: required keys, recursively the per-key shape
for every present declared key, and the closed key set. -/
def objectConstraintsOk (rt : String → String → Bool) (data : Json)
    (skvs : List (String × Json)) : Bool :=
  requiredKeysOk data skvs &&
  (match data with
   | .obj dkvs =>
     (match jget skvs "properties" with
      | some props =>
        if props.truthy then
          (match props with
           | .obj pkvs =>
             dkvs.all (fun p =>
               match jget pkvs p.1 with
               | some ps => validate rt p.2 ps
               | none => true)
           | _ => true)
        else true
      | none => true)
   | _ => true)
  && closedKeySetOk data skvs

/-- Conjunction of all seven constraint families of a schema object; a
non-object schema constrains nothing. -/
def constraintsOk (rt : String → String → Bool) (data schema : Json) : Bool :=
  match schema with
  | .obj skvs =>
    typeConstraintOk data skvs && enumConstraintOk data skvs
      && constConstraintOk data skvs && numericBoundsOk data skvs
      && stringConstraintsOk rt data skvs
      && arrayConstraintsOk rt data skvs
      && objectConstraintsOk rt data skvs
  | _ => true

theorem validateItems_eq_all (rt : String → String → Bool) (xs : List Json) (its : Json) :
    validateItems rt xs its = xs.all (fun x => validate rt x its) := by
  induction xs with
  | nil => rw [validateItems]; rfl
  | cons x rest ih => rw [validateItems]; simp [ih, List.all_cons]

theorem validateProps_eq_all (rt : String → String → Bool)
    (dkvs pkvs : List (String × Json)) :
    validateProps rt dkvs pkvs
      = dkvs.all (fun p =>
          match jget pkvs p.1 with
          | some ps => validate rt p.2 ps
          | none => true) := by
  induction dkvs with
  | nil => rw [validateProps]; rfl
  | cons p rest ih =>
    cases p with
    | mk k v => rw [validateProps]; simp [ih, List.all_cons]

/-- One-level reading of the `schema.items` loop as a `List.all`. -/
theorem itemsOk_eq (rt : String → String → Bool) (data : Json)
    (skvs : List (String × Json)) :
    itemsOk rt data skvs
      = (match data with
         | .arr xs =>
           (match jget skvs "items" with
            | some its => if its.truthy then xs.all (fun x => validate rt x its) else true
            | none => true)
         | _ => true) := by
  cases data <;> rw [itemsOk] <;> simp [validateItems_eq_all]

/-- One-level reading of the `schema.properties` loop as a `List.all`. -/
theorem propertiesOk_eq (rt : String → String → Bool) (data : Json)
    (skvs : List (String × Json)) :
    propertiesOk rt data skvs
      = (match data with
         | .obj dkvs =>
           (match jget skvs "properties" with
            | some props =>
              if props.truthy then
                (match props with
                 | .obj pkvs =>
                   dkvs.all (fun p =>
                     match jget pkvs p.1 with
                     | some ps => validate rt p.2 ps
                     | none => true)
                 | _ => true)
              else true
            | none => true)
         | _ => true) := by
  cases data <;> rw [propertiesOk] <;> simp [validateProps_eq_all]

/-! ## IPFS fetch with gateway fallback and the main verdict (source.js) -/

/-- The `fetchFromIPFS` gateway-fallback loop: the per-gateway outcomes for a
content identifier are given in gateway order, `none` meaning `res.error` was
set; the first successful response is returned.  A successful response whose
body is JSON `null` is collapsed to `none` here, which is how the `=== null`
checks of the main logic observe it. -/
def fetchFromIPFS : List (Option Json) → Option Json
  | [] => none
  | some d :: _ => if Json.beq d .null then none else some d
  | none :: rest => fetchFromIPFS rest

/-- The top-level logic of source.js: reject on missing arguments (a falsy
string argument is the empty one), fetch the schema with gateway fallback,
then the data, rejecting as soon as either fetch yields nothing, then
validate; return 1 for verified and 0 for rejected.  `gw cid` lists the
per-gateway outcomes of fetching `cid`. -/
def mainVerify (rt : String → String → Bool) (gw : String → List (Option Json))
    (dataCid schemaCid : String) : Nat :=
  if dataCid = "" ∨ schemaCid = "" then 0
  else
    match fetchFromIPFS (gw schemaCid) with
    | none => 0
    | some schema =>
      match fetchFromIPFS (gw dataCid) with
      | none => 0
      | some data => if validate rt data schema then 1 else 0

theorem fetchFromIPFS_all_fail {rs : List (Option Json)}
    (h : ∀ r ∈ rs, r = none) : fetchFromIPFS rs = none := by
  induction rs with
  | nil => rfl
  | cons r rest ih =>
    have hr : r = none := h r (List.mem_cons_self r rest)
    subst hr
    exact ih (fun q hq => h q (List.mem_cons_of_mem _ hq))

/-- C7: if the schema document fetch fails on every gateway, or the data
document fetch fails on every gateway, the verification routine returns the
rejected verdict 0 and never the verified verdict 1. -/
theorem C7_fetch_failure_rejects (rt : String → String → Bool)
    (gw : String → List (Option Json)) (dataCid schemaCid : String)
    (h : (∀ r ∈ gw schemaCid, r = none) ∨ (∀ r ∈ gw dataCid, r = none)) :
    mainVerify rt gw dataCid schemaCid = 0 := by
  unfold mainVerify
  by_cases hcid : dataCid = "" ∨ schemaCid = ""
  · simp [hcid]
  · simp only [hcid, if_false]
    rcases h with h | h
    · rw [fetchFromIPFS_all_fail h]
    · cases hs : fetchFromIPFS (gw schemaCid) with
      | none => rfl
      | some schema => rw [fetchFromIPFS_all_fail h]

/-- Witness for C7 at a concrete input: both gateways fail for every CID. -/
theorem C7_fetch_failure_rejects_witness :
    mainVerify (fun _ _ => true) (fun _ => [none, none]) "QmData" "QmSchema" = 0 :=
  C7_fetch_failure_rejects (fun _ _ => true) (fun _ => [none, none]) "QmData" "QmSchema"
    (Or.inl (by intro r hr; simpa using hr))

/-- C8: the recursive validator returns true exactly when every applicable
constraint family of the schema (type with the integer refinement, enum,
const, numeric bounds, string length/pattern, array length/items, object
required keys/per-key shapes/closed key set) is satisfied, recursively at
every level; since `constraintsOk` is the conjunction of the family checks,
violating any single family anywhere makes the result false. -/
theorem C8_validator_characterizes_constraints (rt : String → String → Bool)
    (data schema : Json) :
    validate rt data schema = constraintsOk rt data schema := by
  cases schema with
  | obj skvs =>
    rw [validate]
    simp only [constraintsOk, arrayConstraintsOk, objectConstraintsOk,
      itemsOk_eq, propertiesOk_eq]
  | null => rw [validate.eq_def]; rfl
  | bool b => rw [validate.eq_def]; rfl
  | num q => rw [validate.eq_def]; rfl
  | str s => rw [validate.eq_def]; rfl
  | arr xs => rw [validate.eq_def]; rfl

/-! ## EscrowManager (packages/contracts/contracts/EscrowManager.sol)

Escrow custodian: holds deposited value per bounty.  The `onlyBountyRegistry`,
`onlyDataRegistry` and `onlyOwner` modifiers compare the caller with the
stored addresses; a failing check or a failing value transfer reverts, which
the model renders as `Except.error` with the pre-state kept by the caller. -/

namespace EM

inductive EscrowStatus where
  | NONE | FUNDED | RELEASED | REFUNDED
deriving DecidableEq, Repr

structure Escrow where
  bountyId : Nat
  depositor : Nat
  amount : Nat
  status : EscrowStatus
  createdAt : Nat
  releasedAt : Nat
deriving DecidableEq, Repr

/-- The zero-initialised mapping default. -/
def emptyEscrow : Escrow := ⟨0, 0, 0, .NONE, 0, 0⟩

structure EscrowState where
  escrows : List (Nat × Escrow)
  totalDeposits : Nat
  totalReleased : Nat
  totalRefunded : Nat
  bountyRegistry : Nat
  dataRegistry : Nat
  owner : Nat
  balance : Nat
deriving DecidableEq, Repr

/-- Read of the `escrows` mapping. -/
def lookupEscrow (s : EscrowState) (bountyId : Nat) : Escrow :=
  (alookup s.escrows bountyId).getD emptyEscrow

inductive EscrowErr where
  | Unauthorized | InvalidAmount | InvalidBountyId | EscrowNotFound
  | EscrowAlreadyExists | InvalidEscrowStatus | TransferFailed | InvalidAddress
  | ReceiveRejected
deriving DecidableEq, Repr

/-- `deposit(bountyId, depositor)`, `payable`, `onlyBountyRegistry`: requires
a positive value, a non-zero depositor and no prior escrow; records a Funded
escrow and adds the received value to the totals and the contract balance. -/
def deposit (s : EscrowState) (sender bountyId depositor msgValue ts : Nat) :
    Except EscrowErr EscrowState :=
  if sender ≠ s.bountyRegistry then .error .Unauthorized
  else if msgValue = 0 then .error .InvalidAmount
  else if depositor = 0 then .error .InvalidAddress
  else if (lookupEscrow s bountyId).status ≠ .NONE then .error .EscrowAlreadyExists
  else .ok { s with
    escrows := aset s.escrows bountyId ⟨bountyId, depositor, msgValue, .FUNDED, ts, 0⟩,
    totalDeposits := s.totalDeposits + msgValue,
    balance := s.balance + msgValue }

/-- `increaseDeposit(bountyId, depositor)`, `payable`, `onlyBountyRegistry`:
requires a positive value and a Funded escrow; adds the value to the stored
amount (the `depositor` argument is only used by the emitted event). -/
def increaseDeposit (s : EscrowState) (sender bountyId depositor msgValue : Nat) :
    Except EscrowErr EscrowState :=
  if sender ≠ s.bountyRegistry then .error .Unauthorized
  else if msgValue = 0 then .error .InvalidAmount
  else
    let escrow := lookupEscrow s bountyId
    if escrow.status ≠ .FUNDED then .error .InvalidEscrowStatus
    else .ok { s with
      escrows := aset s.escrows bountyId { escrow with amount := escrow.amount + msgValue },
      totalDeposits := s.totalDeposits + msgValue,
      balance := s.balance + msgValue }

/-- `release(bountyId, recipient)`, `nonReentrant onlyDataRegistry`: requires
a non-zero recipient and a Funded escrow; marks the escrow Released with the
settlement time, adds the stored amount to `totalReleased` and transfers it
to the recipient.  In the source the state is mutated before the low-level
call; a failing call reverts the whole transaction, so the failure branch is
an error with no state change.  On success the returned pair is the performed
transfer (recipient, amount). -/
def release (s : EscrowState) (sender bountyId recipient : Nat) (transferOk : Bool)
    (ts : Nat) : Except EscrowErr (EscrowState × Nat × Nat) :=
  if sender ≠ s.dataRegistry then .error .Unauthorized
  else if recipient = 0 then .error .InvalidAddress
  else
    let escrow := lookupEscrow s bountyId
    if escrow.status ≠ .FUNDED then .error .InvalidEscrowStatus
    else if ¬ transferOk then .error .TransferFailed
    else .ok ({ s with
      escrows := aset s.escrows bountyId { escrow with status := .RELEASED, releasedAt := ts },
      totalReleased := s.totalReleased + escrow.amount,
      balance := s.balance - escrow.amount }, recipient, escrow.amount)

/-- `refund(bountyId)`, `nonReentrant onlyBountyRegistry`: requires a Funded
escrow; marks it Refunded and returns the full amount to the original
depositor, with the same all-or-nothing transfer contract as `release`. -/
def refund (s : EscrowState) (sender bountyId : Nat) (transferOk : Bool) (ts : Nat) :
    Except EscrowErr (EscrowState × Nat × Nat) :=
  if sender ≠ s.bountyRegistry then .error .Unauthorized
  else
    let escrow := lookupEscrow s bountyId
    if escrow.status ≠ .FUNDED then .error .InvalidEscrowStatus
    else if ¬ transferOk then .error .TransferFailed
    else .ok ({ s with
      escrows := aset s.escrows bountyId { escrow with status := .REFUNDED, releasedAt := ts },
      totalRefunded := s.totalRefunded + escrow.amount,
      balance := s.balance - escrow.amount }, escrow.depositor, escrow.amount)

/-- `emergencyWithdraw(bountyId, recipient)`, `nonReentrant onlyOwner`: same
contract as `refund` but to an arbitrary recipient, only for the owner. -/
def emergencyWithdraw (s : EscrowState) (sender bountyId recipient : Nat)
    (transferOk : Bool) (ts : Nat) : Except EscrowErr (EscrowState × Nat × Nat) :=
  if sender ≠ s.owner then .error .Unauthorized
  else if recipient = 0 then .error .InvalidAddress
  else
    let escrow := lookupEscrow s bountyId
    if escrow.status ≠ .FUNDED then .error .InvalidEscrowStatus
    else if ¬ transferOk then .error .TransferFailed
    else .ok ({ s with
      escrows := aset s.escrows bountyId { escrow with status := .REFUNDED, releasedAt := ts },
      totalRefunded := s.totalRefunded + escrow.amount,
      balance := s.balance - escrow.amount }, recipient, escrow.amount)

/-- `setBountyRegistry(address)`, `onlyOwner`. -/
def setBountyRegistry (s : EscrowState) (sender addr : Nat) : Except EscrowErr EscrowState :=
  if sender ≠ s.owner then .error .Unauthorized
  else if addr = 0 then .error .InvalidAddress
  else .ok { s with bountyRegistry := addr }

/-- `setDataRegistry(address)`, `onlyOwner`. -/
def setDataRegistry (s : EscrowState) (sender addr : Nat) : Except EscrowErr EscrowState :=
  if sender ≠ s.owner then .error .Unauthorized
  else if addr = 0 then .error .InvalidAddress
  else .ok { s with dataRegistry := addr }

/-- The `receive()` function: `revert("Use deposit() function")` — every
direct value transfer is rejected, whoever sends it. -/
def receiveEther (s : EscrowState) (sender msgValue : Nat) : Except EscrowErr EscrowState :=
  .error .ReceiveRejected

/-- `getTotalBalance()`: the contract's current balance. -/
def getTotalBalance (s : EscrowState) : Nat := s.balance

/-- One external call to the custodian, with its caller, arguments, call
value, transfer outcome and block timestamp. -/
inductive EscrowOp where
  | deposit (sender bountyId depositor msgValue ts : Nat)
  | increaseDeposit (sender bountyId depositor msgValue : Nat)
  | release (sender bountyId recipient : Nat) (transferOk : Bool) (ts : Nat)
  | refund (sender bountyId : Nat) (transferOk : Bool) (ts : Nat)
  | emergencyWithdraw (sender bountyId recipient : Nat) (transferOk : Bool) (ts : Nat)
  | setBountyRegistry (sender addr : Nat)
  | setDataRegistry (sender addr : Nat)
  | receiveEther (sender msgValue : Nat)

/-- Outcome of one call (transfers projected away). -/
def opResult (s : EscrowState) : EscrowOp → Except EscrowErr EscrowState
  | .deposit sender b d v ts => deposit s sender b d v ts
  | .increaseDeposit sender b d v => increaseDeposit s sender b d v
  | .release sender b r tOk ts => (release s sender b r tOk ts).map (fun p => p.1)
  | .refund sender b tOk ts => (refund s sender b tOk ts).map (fun p => p.1)
  | .emergencyWithdraw sender b r tOk ts =>
    (emergencyWithdraw s sender b r tOk ts).map (fun p => p.1)
  | .setBountyRegistry sender a => setBountyRegistry s sender a
  | .setDataRegistry sender a => setDataRegistry s sender a
  | .receiveEther sender v => receiveEther s sender v

/-- State after one call: a revert leaves the state unchanged. -/
def execOp (s : EscrowState) (op : EscrowOp) : EscrowState :=
  match opResult s op with
  | .ok s2 => s2
  | .error _ => s

/-- State after a sequence of calls. -/
def runOps (s : EscrowState) (ops : List EscrowOp) : EscrowState :=
  ops.foldl execOp s

/-- The custodian as deployed: no escrows, zero totals and balance, and the
configured authorized addresses. -/
def initialState (bountyRegistry dataRegistry owner : Nat) : EscrowState :=
  ⟨[], 0, 0, 0, bountyRegistry, dataRegistry, owner, 0⟩

/-- Contribution of one escrow record to the currently-funded sum. -/
def contribOf (e : Escrow) : Nat :=
  if e.status = .FUNDED then e.amount else 0

/-- Sum of the amounts of all escrows whose status is Funded. -/
def fundedSum (l : List (Nat × Escrow)) : Nat :=
  (l.map (fun p => contribOf p.2)).sum

/-- The conservation invariant together with the facts that make it
inductive: the totals ledger balances against the funded sum, the balance is
the funded sum, and no stored escrow record has status NONE. -/
def Conserved (s : EscrowState) : Prop :=
  s.totalDeposits = s.totalReleased + s.totalRefunded + fundedSum s.escrows
    ∧ s.balance = fundedSum s.escrows
    ∧ ∀ p ∈ s.escrows, p.2.status ≠ EscrowStatus.NONE

end EM

theorem fundedSum_aset_none {l : List (Nat × EM.Escrow)} {k : Nat} (v : EM.Escrow)
    (h : alookup l k = none) :
    EM.fundedSum (aset l k v) = EM.fundedSum l + EM.contribOf v := by
  induction l with
  | nil => simp [aset, EM.fundedSum]
  | cons p rest ih =>
    by_cases hp : p.1 = k
    · exfalso
      have hpb : (p.1 == k) = true := beq_iff_eq.mpr hp
      simp [alookup, List.find?, hpb] at h
    · have hpb : (p.1 == k) = false := beq_eq_false_iff_ne.mpr hp
      have hrest : alookup rest k = none := by
        simpa [alookup, List.find?, hpb] using h
      simp only [aset, hpb, Bool.false_eq_true, if_false]
      have h1 : EM.fundedSum (p :: aset rest k v)
          = EM.contribOf p.2 + EM.fundedSum (aset rest k v) := by
        simp [EM.fundedSum]
      have h2 : EM.fundedSum (p :: rest) = EM.contribOf p.2 + EM.fundedSum rest := by
        simp [EM.fundedSum]
      rw [h1, h2, ih hrest]
      omega

theorem fundedSum_aset_some {l : List (Nat × EM.Escrow)} {k : Nat} {e : EM.Escrow}
    (v : EM.Escrow) (h : alookup l k = some e) :
    EM.fundedSum (aset l k v) + EM.contribOf e = EM.fundedSum l + EM.contribOf v := by
  induction l with
  | nil => simp [alookup, List.find?] at h
  | cons p rest ih =>
    by_cases hp : p.1 = k
    · have hpb : (p.1 == k) = true := beq_iff_eq.mpr hp
      have hpe : p.2 = e := by
        simpa [alookup, List.find?, hpb] using h
      simp only [aset, hpb, if_true]
      have h1 : EM.fundedSum ((k, v) :: rest) = EM.contribOf v + EM.fundedSum rest := by
        simp [EM.fundedSum]
      have h2 : EM.fundedSum (p :: rest) = EM.contribOf p.2 + EM.fundedSum rest := by
        simp [EM.fundedSum]
      rw [h1, h2, hpe]
      omega
    · have hpb : (p.1 == k) = false := beq_eq_false_iff_ne.mpr hp
      have hrest : alookup rest k = some e := by
        simpa [alookup, List.find?, hpb] using h
      simp only [aset, hpb, Bool.false_eq_true, if_false]
      have h1 : EM.fundedSum (p :: aset rest k v)
          = EM.contribOf p.2 + EM.fundedSum (aset rest k v) := by
        simp [EM.fundedSum]
      have h2 : EM.fundedSum (p :: rest) = EM.contribOf p.2 + EM.fundedSum rest := by
        simp [EM.fundedSum]
      rw [h1, h2]
      have := ih hrest
      omega

theorem alookup_none_of_status_none {s : EM.EscrowState} {b : Nat}
    (hS : ∀ p ∈ s.escrows, p.2.status ≠ EM.EscrowStatus.NONE)
    (h : (EM.lookupEscrow s b).status = EM.EscrowStatus.NONE) :
    alookup s.escrows b = none := by
  cases hf : List.find? (fun p => p.1 == b) s.escrows with
  | none => simp [alookup, hf]
  | some p =>
    exfalso
    have hmem := List.mem_of_find?_eq_some hf
    have hl : EM.lookupEscrow s b = p.2 := by
      simp [EM.lookupEscrow, alookup, hf]
    exact hS p hmem (by rw [← hl]; exact h)

theorem alookup_some_of_status_ne_none {s : EM.EscrowState} {b : Nat}
    (h : (EM.lookupEscrow s b).status ≠ EM.EscrowStatus.NONE) :
    alookup s.escrows b = some (EM.lookupEscrow s b) := by
  cases he : alookup s.escrows b with
  | none =>
    exfalso
    apply h
    simp [EM.lookupEscrow, he, EM.emptyEscrow]
  | some e => simp [EM.lookupEscrow, he]

theorem conserved_deposit {s s2 : EM.EscrowState} {sender b d v ts : Nat}
    (h : EM.Conserved s) (he : EM.deposit s sender b d v ts = .ok s2) :
    EM.Conserved s2 := by
  obtain ⟨hD, hB, hS⟩ := h
  simp only [EM.deposit] at he
  split_ifs at he with h1 h2 h3 h4 <;> try (exact Except.noConfusion he)
  have hnone : alookup s.escrows b = none :=
    alookup_none_of_status_none hS (not_not.mp h4)
  have heq := Except.ok.inj he
  subst heq
  have hsum := fundedSum_aset_none (⟨b, d, v, .FUNDED, ts, 0⟩ : EM.Escrow) hnone
  have hcontrib : EM.contribOf (⟨b, d, v, .FUNDED, ts, 0⟩ : EM.Escrow) = v := by
    simp [EM.contribOf]
  refine ⟨?_, ?_, ?_⟩
  · dsimp only at *
    rw [hsum, hcontrib]
    omega
  · dsimp only at *
    rw [hsum, hcontrib]
    omega
  · intro p hp
    rcases mem_aset hp with hp1 | hp1
    · subst hp1; simp
    · exact hS p hp1

theorem conserved_increaseDeposit {s s2 : EM.EscrowState} {sender b d v : Nat}
    (h : EM.Conserved s) (he : EM.increaseDeposit s sender b d v = .ok s2) :
    EM.Conserved s2 := by
  obtain ⟨hD, hB, hS⟩ := h
  simp only [EM.increaseDeposit] at he
  split_ifs at he with h1 h2 h3 <;> try (exact Except.noConfusion he)
  have hfunded : (EM.lookupEscrow s b).status = .FUNDED := not_not.mp h3
  have hsome : alookup s.escrows b = some (EM.lookupEscrow s b) :=
    alookup_some_of_status_ne_none (by rw [hfunded]; simp)
  have heq := Except.ok.inj he
  subst heq
  have hsum := fundedSum_aset_some
    ({ EM.lookupEscrow s b with amount := (EM.lookupEscrow s b).amount + v }) hsome
  have hc1 : EM.contribOf (EM.lookupEscrow s b) = (EM.lookupEscrow s b).amount := by
    simp [EM.contribOf, hfunded]
  have hc2 : EM.contribOf
      ({ EM.lookupEscrow s b with amount := (EM.lookupEscrow s b).amount + v })
      = (EM.lookupEscrow s b).amount + v := by
    simp [EM.contribOf, hfunded]
  refine ⟨?_, ?_, ?_⟩
  · dsimp only at *
    omega
  · dsimp only at *
    omega
  · intro p hp
    rcases mem_aset hp with hp1 | hp1
    · subst hp1
      dsimp only
      rw [hfunded]
      simp
    · exact hS p hp1

theorem conserved_release {s s2 : EM.EscrowState} {sender b r rr amt ts : Nat}
    {tOk : Bool}
    (h : EM.Conserved s) (he : EM.release s sender b r tOk ts = .ok (s2, rr, amt)) :
    EM.Conserved s2 := by
  obtain ⟨hD, hB, hS⟩ := h
  simp only [EM.release] at he
  split_ifs at he with h1 h2 h3 h4 <;> try (exact Except.noConfusion he)
  have hfunded : (EM.lookupEscrow s b).status = .FUNDED := not_not.mp h3
  have hsome : alookup s.escrows b = some (EM.lookupEscrow s b) :=
    alookup_some_of_status_ne_none (by rw [hfunded]; simp)
  have heq := Except.ok.inj he
  have heqs : { s with
      escrows := aset s.escrows b
        { EM.lookupEscrow s b with status := .RELEASED, releasedAt := ts },
      totalReleased := s.totalReleased + (EM.lookupEscrow s b).amount,
      balance := s.balance - (EM.lookupEscrow s b).amount } = s2 :=
    congrArg Prod.fst heq
  subst heqs
  have hsum := fundedSum_aset_some
    ({ EM.lookupEscrow s b with status := .RELEASED, releasedAt := ts }) hsome
  have hc1 : EM.contribOf (EM.lookupEscrow s b) = (EM.lookupEscrow s b).amount := by
    simp [EM.contribOf, hfunded]
  have hc2 : EM.contribOf
      ({ EM.lookupEscrow s b with status := .RELEASED, releasedAt := ts }) = 0 := by
    simp [EM.contribOf]
  refine ⟨?_, ?_, ?_⟩
  · dsimp only at *
    omega
  · dsimp only at *
    omega
  · intro p hp
    rcases mem_aset hp with hp1 | hp1
    · subst hp1; simp
    · exact hS p hp1

theorem conserved_refund {s s2 : EM.EscrowState} {sender b rr amt ts : Nat}
    {tOk : Bool}
    (h : EM.Conserved s) (he : EM.refund s sender b tOk ts = .ok (s2, rr, amt)) :
    EM.Conserved s2 := by
  obtain ⟨hD, hB, hS⟩ := h
  simp only [EM.refund] at he
  split_ifs at he with h1 h2 h3 <;> try (exact Except.noConfusion he)
  have hfunded : (EM.lookupEscrow s b).status = .FUNDED := not_not.mp h2
  have hsome : alookup s.escrows b = some (EM.lookupEscrow s b) :=
    alookup_some_of_status_ne_none (by rw [hfunded]; simp)
  have heq := Except.ok.inj he
  have heqs : { s with
      escrows := aset s.escrows b
        { EM.lookupEscrow s b with status := .REFUNDED, releasedAt := ts },
      totalRefunded := s.totalRefunded + (EM.lookupEscrow s b).amount,
      balance := s.balance - (EM.lookupEscrow s b).amount } = s2 :=
    congrArg Prod.fst heq
  subst heqs
  have hsum := fundedSum_aset_some
    ({ EM.lookupEscrow s b with status := .REFUNDED, releasedAt := ts }) hsome
  have hc1 : EM.contribOf (EM.lookupEscrow s b) = (EM.lookupEscrow s b).amount := by
    simp [EM.contribOf, hfunded]
  have hc2 : EM.contribOf
      ({ EM.lookupEscrow s b with status := .REFUNDED, releasedAt := ts }) = 0 := by
    simp [EM.contribOf]
  refine ⟨?_, ?_, ?_⟩
  · dsimp only at *
    omega
  · dsimp only at *
    omega
  · intro p hp
    rcases mem_aset hp with hp1 | hp1
    · subst hp1; simp
    · exact hS p hp1

theorem conserved_emergencyWithdraw {s s2 : EM.EscrowState} {sender b r rr amt ts : Nat}
    {tOk : Bool}
    (h : EM.Conserved s)
    (he : EM.emergencyWithdraw s sender b r tOk ts = .ok (s2, rr, amt)) :
    EM.Conserved s2 := by
  obtain ⟨hD, hB, hS⟩ := h
  simp only [EM.emergencyWithdraw] at he
  split_ifs at he with h1 h2 h3 h4 <;> try (exact Except.noConfusion he)
  have hfunded : (EM.lookupEscrow s b).status = .FUNDED := not_not.mp h3
  have hsome : alookup s.escrows b = some (EM.lookupEscrow s b) :=
    alookup_some_of_status_ne_none (by rw [hfunded]; simp)
  have heq := Except.ok.inj he
  have heqs : { s with
      escrows := aset s.escrows b
        { EM.lookupEscrow s b with status := .REFUNDED, releasedAt := ts },
      totalRefunded := s.totalRefunded + (EM.lookupEscrow s b).amount,
      balance := s.balance - (EM.lookupEscrow s b).amount } = s2 :=
    congrArg Prod.fst heq
  subst heqs
  have hsum := fundedSum_aset_some
    ({ EM.lookupEscrow s b with status := .REFUNDED, releasedAt := ts }) hsome
  have hc1 : EM.contribOf (EM.lookupEscrow s b) = (EM.lookupEscrow s b).amount := by
    simp [EM.contribOf, hfunded]
  have hc2 : EM.contribOf
      ({ EM.lookupEscrow s b with status := .REFUNDED, releasedAt := ts }) = 0 := by
    simp [EM.contribOf]
  refine ⟨?_, ?_, ?_⟩
  · dsimp only at *
    omega
  · dsimp only at *
    omega
  · intro p hp
    rcases mem_aset hp with hp1 | hp1
    · subst hp1; simp
    · exact hS p hp1

theorem conserved_execOp (s : EM.EscrowState) (op : EM.EscrowOp)
    (h : EM.Conserved s) : EM.Conserved (EM.execOp s op) := by
  cases op with
  | deposit sender b d v ts =>
    cases he : EM.deposit s sender b d v ts with
    | error e =>
      simp only [EM.execOp, EM.opResult, he]
      exact h
    | ok s2 =>
      simp only [EM.execOp, EM.opResult, he]
      exact conserved_deposit h he
  | increaseDeposit sender b d v =>
    cases he : EM.increaseDeposit s sender b d v with
    | error e =>
      simp only [EM.execOp, EM.opResult, he]
      exact h
    | ok s2 =>
      simp only [EM.execOp, EM.opResult, he]
      exact conserved_increaseDeposit h he
  | release sender b r tOk ts =>
    cases he : EM.release s sender b r tOk ts with
    | error e =>
      simp only [EM.execOp, EM.opResult, he, Except.map]
      exact h
    | ok p =>
      simp only [EM.execOp, EM.opResult, he, Except.map]
      exact conserved_release h (show _ = Except.ok (p.1, p.2.1, p.2.2) by rw [he])
  | refund sender b tOk ts =>
    cases he : EM.refund s sender b tOk ts with
    | error e =>
      simp only [EM.execOp, EM.opResult, he, Except.map]
      exact h
    | ok p =>
      simp only [EM.execOp, EM.opResult, he, Except.map]
      exact conserved_refund h (show _ = Except.ok (p.1, p.2.1, p.2.2) by rw [he])
  | emergencyWithdraw sender b r tOk ts =>
    cases he : EM.emergencyWithdraw s sender b r tOk ts with
    | error e =>
      simp only [EM.execOp, EM.opResult, he, Except.map]
      exact h
    | ok p =>
      simp only [EM.execOp, EM.opResult, he, Except.map]
      exact conserved_emergencyWithdraw h (show _ = Except.ok (p.1, p.2.1, p.2.2) by rw [he])
  | setBountyRegistry sender a =>
    cases he : EM.setBountyRegistry s sender a with
    | error e =>
      simp only [EM.execOp, EM.opResult, he]
      exact h
    | ok s2 =>
      simp only [EM.execOp, EM.opResult, he]
      obtain ⟨hD, hB, hS⟩ := h
      simp only [EM.setBountyRegistry] at he
      split_ifs at he with h1 h2 <;> try (exact Except.noConfusion he)
      have heq := Except.ok.inj he
      subst heq
      exact ⟨hD, hB, hS⟩
  | setDataRegistry sender a =>
    cases he : EM.setDataRegistry s sender a with
    | error e =>
      simp only [EM.execOp, EM.opResult, he]
      exact h
    | ok s2 =>
      simp only [EM.execOp, EM.opResult, he]
      obtain ⟨hD, hB, hS⟩ := h
      simp only [EM.setDataRegistry] at he
      split_ifs at he with h1 h2 <;> try (exact Except.noConfusion he)
      have heq := Except.ok.inj he
      subst heq
      exact ⟨hD, hB, hS⟩
  | receiveEther sender v =>
    simp only [EM.execOp, EM.opResult, EM.receiveEther]
    exact h

theorem conserved_runOps (ops : List EM.EscrowOp) (s : EM.EscrowState)
    (h : EM.Conserved s) : EM.Conserved (EM.runOps s ops) := by
  induction ops generalizing s with
  | nil => exact h
  | cons op rest ih =>
    have h1 : EM.runOps s (op :: rest) = EM.runOps (EM.execOp s op) rest := rfl
    rw [h1]
    exact ih _ (conserved_execOp s op h)

theorem conserved_initial (bR dR ow : Nat) : EM.Conserved (EM.initialState bR dR ow) := by
  refine ⟨rfl, rfl, ?_⟩
  intro p hp
  simp [EM.initialState] at hp

/-- C1: for every sequence of Escrow Custodian calls (deposit,
increaseDeposit, release, refund, emergencyWithdraw, and also the admin
setters and the rejecting receive function) starting from the empty escrow
state, the total ever deposited equals the total released plus the total
refunded plus the sum of the amounts of all escrows whose status is Funded;
since every prefix of a sequence is again a sequence, the equation holds
after each operation. -/
theorem C1_escrow_conservation (bR dR ow : Nat) (ops : List EM.EscrowOp) :
    (EM.runOps (EM.initialState bR dR ow) ops).totalDeposits
      = (EM.runOps (EM.initialState bR dR ow) ops).totalReleased
        + (EM.runOps (EM.initialState bR dR ow) ops).totalRefunded
        + EM.fundedSum (EM.runOps (EM.initialState bR dR ow) ops).escrows :=
  (conserved_runOps ops _ (conserved_initial bR dR ow)).1

/-- C10: the receive function rejects every direct value transfer, whoever
sends it and whatever the value, so in every state reachable by custodian
calls from the empty state the balance reported by getTotalBalance equals
the funded sum, which equals totalDeposits minus totalReleased minus
totalRefunded. -/
theorem C10_balance_is_funded_sum :
    (∀ (s : EM.EscrowState) (sender msgValue : Nat),
      EM.receiveEther s sender msgValue = .error .ReceiveRejected)
    ∧ ∀ (bR dR ow : Nat) (ops : List EM.EscrowOp),
        EM.getTotalBalance (EM.runOps (EM.initialState bR dR ow) ops)
            = EM.fundedSum (EM.runOps (EM.initialState bR dR ow) ops).escrows
          ∧ EM.getTotalBalance (EM.runOps (EM.initialState bR dR ow) ops)
            = (EM.runOps (EM.initialState bR dR ow) ops).totalDeposits
              - (EM.runOps (EM.initialState bR dR ow) ops).totalReleased
              - (EM.runOps (EM.initialState bR dR ow) ops).totalRefunded := by
  refine ⟨fun s sender v => rfl, fun bR dR ow ops => ?_⟩
  obtain ⟨hD, hB, hS⟩ := conserved_runOps ops _ (conserved_initial bR dR ow)
  constructor
  · exact hB
  · unfold EM.getTotalBalance
    omega

/-- C4: release on a Funded escrow either succeeds, marking the escrow
Released with the settlement time and transferring the full stored amount to
the recipient, or, when the value transfer cannot complete, fails as a whole
with TransferFailed and leaves the escrow and every counter exactly as
before (still Funded, no partial release). -/
theorem C4_release_atomic (s : EM.EscrowState) (sender bountyId recipient ts : Nat)
    (transferOk : Bool)
    (hsender : sender = s.dataRegistry)
    (hrec : recipient ≠ 0)
    (hf : (EM.lookupEscrow s bountyId).status = .FUNDED) :
    (transferOk = true →
      ∃ s2, EM.release s sender bountyId recipient transferOk ts
          = .ok (s2, recipient, (EM.lookupEscrow s bountyId).amount)
        ∧ (EM.lookupEscrow s2 bountyId).status = .RELEASED
        ∧ (EM.lookupEscrow s2 bountyId).releasedAt = ts
        ∧ (EM.lookupEscrow s2 bountyId).amount = (EM.lookupEscrow s bountyId).amount
        ∧ s2.totalReleased = s.totalReleased + (EM.lookupEscrow s bountyId).amount
        ∧ s2.balance = s.balance - (EM.lookupEscrow s bountyId).amount
        ∧ s2.totalDeposits = s.totalDeposits
        ∧ s2.totalRefunded = s.totalRefunded)
    ∧ (transferOk = false →
      EM.release s sender bountyId recipient transferOk ts = .error .TransferFailed
        ∧ EM.execOp s (.release sender bountyId recipient transferOk ts) = s) := by
  constructor
  · intro ht
    subst ht
    refine ⟨{ s with
      escrows := aset s.escrows bountyId
        { EM.lookupEscrow s bountyId with status := .RELEASED, releasedAt := ts },
      totalReleased := s.totalReleased + (EM.lookupEscrow s bountyId).amount,
      balance := s.balance - (EM.lookupEscrow s bountyId).amount }, ?_, ?_, ?_, ?_, rfl, rfl, rfl, rfl⟩
    · simp only [EM.release, hsender]
      rw [if_neg (by simp), if_neg hrec, if_neg (by rw [hf]; simp), if_neg (by simp)]
    · simp [EM.lookupEscrow, alookup_aset]
    · simp [EM.lookupEscrow, alookup_aset]
    · simp [EM.lookupEscrow, alookup_aset]
  · intro ht
    subst ht
    have herr : EM.release s sender bountyId recipient false ts
        = .error .TransferFailed := by
      simp only [EM.release, hsender]
      rw [if_neg (by simp), if_neg hrec, if_neg (by rw [hf]; simp)]
      simp
    refine ⟨herr, ?_⟩
    simp only [EM.execOp, EM.opResult, herr, Except.map]

/-- Witness for C4 at a concrete state: a single Funded escrow of amount 5,
released to recipient 9 by the data registry (address 2); the success branch
is exercised with a succeeding transfer and the rollback branch with a
failing one. -/
theorem C4_release_atomic_witness :
    (∃ s2, EM.release ⟨[(0, ⟨0, 7, 5, .FUNDED, 1, 0⟩)], 5, 0, 0, 1, 2, 3, 5⟩
        2 0 9 true 4
        = .ok (s2, 9,
            (EM.lookupEscrow ⟨[(0, ⟨0, 7, 5, .FUNDED, 1, 0⟩)], 5, 0, 0, 1, 2, 3, 5⟩ 0).amount)
      ∧ (EM.lookupEscrow s2 0).status = .RELEASED
      ∧ (EM.lookupEscrow s2 0).releasedAt = 4
      ∧ (EM.lookupEscrow s2 0).amount
          = (EM.lookupEscrow ⟨[(0, ⟨0, 7, 5, .FUNDED, 1, 0⟩)], 5, 0, 0, 1, 2, 3, 5⟩ 0).amount
      ∧ s2.totalReleased
          = 0 + (EM.lookupEscrow ⟨[(0, ⟨0, 7, 5, .FUNDED, 1, 0⟩)], 5, 0, 0, 1, 2, 3, 5⟩ 0).amount
      ∧ s2.balance
          = 5 - (EM.lookupEscrow ⟨[(0, ⟨0, 7, 5, .FUNDED, 1, 0⟩)], 5, 0, 0, 1, 2, 3, 5⟩ 0).amount
      ∧ s2.totalDeposits = 5
      ∧ s2.totalRefunded = 0)
    ∧ (EM.release ⟨[(0, ⟨0, 7, 5, .FUNDED, 1, 0⟩)], 5, 0, 0, 1, 2, 3, 5⟩ 2 0 9 false 4
          = .error .TransferFailed
        ∧ EM.execOp ⟨[(0, ⟨0, 7, 5, .FUNDED, 1, 0⟩)], 5, 0, 0, 1, 2, 3, 5⟩
            (.release 2 0 9 false 4)
          = ⟨[(0, ⟨0, 7, 5, .FUNDED, 1, 0⟩)], 5, 0, 0, 1, 2, 3, 5⟩) :=
  ⟨(C4_release_atomic ⟨[(0, ⟨0, 7, 5, .FUNDED, 1, 0⟩)], 5, 0, 0, 1, 2, 3, 5⟩ 2 0 9 4 true
      rfl (by decide) (by rfl)).1 rfl,
   (C4_release_atomic ⟨[(0, ⟨0, 7, 5, .FUNDED, 1, 0⟩)], 5, 0, 0, 1, 2, 3, 5⟩ 2 0 9 4 false
      rfl (by decide) (by rfl)).2 rfl⟩

/-! ## BountyRegistry (packages/contracts/contracts/BountyRegistry.sol) -/

namespace BR

inductive BountyStatus where
  | DRAFT | ACTIVE | COMPLETED | CANCELLED | EXPIRED
deriving DecidableEq, Repr

structure Bounty where
  id : Nat
  creator : Nat
  title : String
  description : String
  schemaUri : String
  reward : Nat
  deadline : Nat
  status : BountyStatus
  maxSubmissions : Nat
  submissionCount : Nat
  createdAt : Nat
deriving DecidableEq, Repr

/-- The zero-initialised mapping default (status DRAFT is the zero member). -/
def emptyBounty : Bounty := ⟨0, 0, "", "", "", 0, 0, .DRAFT, 0, 0, 0⟩

structure BountyState where
  bountyIdCounter : Nat
  bounties : List (Nat × Bounty)
  dataRegistry : Nat
  escrowManagerSet : Bool
deriving DecidableEq, Repr

/-- Read of the `bounties` mapping. -/
def lookupBounty (br : BountyState) (bountyId : Nat) : Bounty :=
  (alookup br.bounties bountyId).getD emptyBounty

inductive BountyErr where
  | InsufficientReward | InvalidDeadline | BountyNotFound | Unauthorized
  | InvalidStatus | MaxSubmissionsReached | EscrowManagerNotSet
  | EscrowDepositFailed | DataRegistryNotSet | InvalidAddress
deriving DecidableEq, Repr

/-- `MIN_REWARD = 0.01 ether` in wei. -/
def MIN_REWARD : Nat := 10000000000000000

/-- `completeBounty(bountyId, winner, cid)`, `onlyDataRegistry`: requires an
existing Active bounty; marks it Completed (does not itself move funds). -/
def completeBountyCore (br : BountyState) (sender bountyId winner : Nat)
    (cid : String) : Except BountyErr BountyState :=
  if br.dataRegistry = 0 then .error .DataRegistryNotSet
  else if sender ≠ br.dataRegistry then .error .Unauthorized
  else
    let b := lookupBounty br bountyId
    if b.creator = 0 then .error .BountyNotFound
    else if b.status ≠ .ACTIVE then .error .InvalidStatus
    else .ok { br with bounties := aset br.bounties bountyId { b with status := .COMPLETED } }

/-- `incrementSubmissions(bountyId)`, `onlyDataRegistry`: requires an existing
bounty with `submissionCount < maxSubmissions`, else MaxSubmissionsReached;
increments the counter by one. -/
def incrementSubmissionsCore (br : BountyState) (sender bountyId : Nat) :
    Except BountyErr BountyState :=
  if br.dataRegistry = 0 then .error .DataRegistryNotSet
  else if sender ≠ br.dataRegistry then .error .Unauthorized
  else
    let b := lookupBounty br bountyId
    if b.creator = 0 then .error .BountyNotFound
    else if b.submissionCount ≥ b.maxSubmissions then .error .MaxSubmissionsReached
    else .ok { br with
      bounties := aset br.bounties bountyId
        { b with submissionCount := b.submissionCount + 1 } }

/-- `extendDeadline(bountyId, newDeadline)`: owner-only, Active only, new
deadline strictly beyond both the current deadline and the current time. -/
def extendDeadlineCore (br : BountyState) (sender bountyId newDeadline ts : Nat) :
    Except BountyErr BountyState :=
  let b := lookupBounty br bountyId
  if b.creator = 0 then .error .BountyNotFound
  else if sender ≠ b.creator then .error .Unauthorized
  else if b.status ≠ .ACTIVE then .error .InvalidStatus
  else if newDeadline ≤ b.deadline then .error .InvalidDeadline
  else if newDeadline ≤ ts then .error .InvalidDeadline
  else .ok { br with bounties := aset br.bounties bountyId { b with deadline := newDeadline } }

/-- `isBountyActive(bountyId)`: Active, not past the deadline, and below the
submission cap. -/
def isBountyActive (br : BountyState) (bountyId ts : Nat) : Bool :=
  (lookupBounty br bountyId).status == .ACTIVE
    && decide (ts ≤ (lookupBounty br bountyId).deadline)
    && decide ((lookupBounty br bountyId).submissionCount
        < (lookupBounty br bountyId).maxSubmissions)

end BR

/-! ## DataRegistry submissions

The submission records and guard structure follow the DataRegistry contract
(src/unnamed/part_008).  The payment path of `handleVerificationResult` is
taken from the current DataRegistry variant which releases the escrow through
the EscrowManager; see `Sys.handleVerificationResult` below. -/

namespace DR

inductive SubmissionStatus where
  | PENDING | VERIFYING | VERIFIED | REJECTED
deriving DecidableEq, Repr

structure Submission where
  id : Nat
  bountyId : Nat
  contributor : Nat
  cid : String
  metadata : String
  status : SubmissionStatus
  submittedAt : Nat
  verifiedAt : Nat
deriving DecidableEq, Repr

/-- The zero-initialised mapping default. -/
def emptySubmission : Submission := ⟨0, 0, 0, "", "", .PENDING, 0, 0⟩

structure DataState where
  submissionIdCounter : Nat
  submissions : List (Nat × Submission)
  bountySubmissions : List (Nat × List Nat)
  functionsConsumer : Nat
deriving DecidableEq, Repr

inductive DataErr where
  | BountyNotActive | InvalidCID | SubmissionNotFound | Unauthorized
  | FunctionsConsumerNotSet | InvalidStatus | PaymentFailed
deriving DecidableEq, Repr

/-- Read of the `submissions` mapping. -/
def lookupSubmission (d : DataState) (submissionId : Nat) : Submission :=
  (alookup d.submissions submissionId).getD emptySubmission

end DR

/-! ## The wired system: BountyRegistry, EscrowManager and DataRegistry

Cross-contract calls are composed as in the sources: the BountyRegistry calls
the custodian with its own address as sender, the DataRegistry likewise; an
error anywhere reverts the whole outer call. -/

namespace Sys

inductive SysErr where
  | br (e : BR.BountyErr)
  | em (e : EM.EscrowErr)
  | dr (e : DR.DataErr)
deriving DecidableEq, Repr

structure SysState where
  br : BR.BountyState
  em : EM.EscrowState
  dr : DR.DataState
  payments : List (Nat × Nat)
  brAddr : Nat
  drAddr : Nat
deriving DecidableEq, Repr

/-- `createBounty(title, description, schemaUri, deadline, maxSubmissions)`,
`payable`: requires the minimum reward, a future deadline, a non-zero cap,
and a configured escrow manager; assigns the next id, stores an Active
bounty and forwards the value to the custodian's deposit. -/
def createBounty (s : SysState) (sender : Nat) (title description schemaUri : String)
    (deadline maxSubmissions msgValue ts : Nat) : Except SysErr SysState :=
  if msgValue < BR.MIN_REWARD then .error (.br .InsufficientReward)
  else if deadline ≤ ts then .error (.br .InvalidDeadline)
  else if maxSubmissions = 0 then .error (.br .InvalidStatus)
  else if ¬ s.br.escrowManagerSet then .error (.br .EscrowManagerNotSet)
  else
    let bountyId := s.br.bountyIdCounter
    let br2 : BR.BountyState := { s.br with
      bountyIdCounter := bountyId + 1,
      bounties := aset s.br.bounties bountyId
        ⟨bountyId, sender, title, description, schemaUri, msgValue, deadline,
          .ACTIVE, maxSubmissions, 0, ts⟩ }
    match EM.deposit s.em s.brAddr bountyId sender msgValue ts with
    | .error e => .error (.em e)
    | .ok em2 => .ok { s with br := br2, em := em2 }

/-- `cancelBounty(bountyId)`: creator-only, Active only; marks Cancelled and
refunds the creator through the custodian. -/
def cancelBounty (s : SysState) (sender bountyId : Nat) (transferOk : Bool)
    (ts : Nat) : Except SysErr SysState :=
  let b := BR.lookupBounty s.br bountyId
  if b.creator = 0 then .error (.br .BountyNotFound)
  else if sender ≠ b.creator then .error (.br .Unauthorized)
  else if b.status ≠ .ACTIVE then .error (.br .InvalidStatus)
  else
    let br2 := { s.br with bounties := aset s.br.bounties bountyId { b with status := .CANCELLED } }
    match EM.refund s.em s.brAddr bountyId transferOk ts with
    | .error e => .error (.em e)
    | .ok (em2, recipient, amount) =>
      .ok { s with br := br2, em := em2, payments := s.payments ++ [(recipient, amount)] }

/-- `completeBounty` as an external call. -/
def completeBounty (s : SysState) (sender bountyId winner : Nat) (cid : String) :
    Except SysErr SysState :=
  match BR.completeBountyCore s.br sender bountyId winner cid with
  | .error e => .error (.br e)
  | .ok br2 => .ok { s with br := br2 }

/-- `increaseReward(bountyId)`, `payable`: creator-only, Active only,
positive value; adds to the stored reward and forwards the value to the
custodian's increaseDeposit. -/
def increaseReward (s : SysState) (sender bountyId msgValue ts : Nat) :
    Except SysErr SysState :=
  let b := BR.lookupBounty s.br bountyId
  if b.creator = 0 then .error (.br .BountyNotFound)
  else if sender ≠ b.creator then .error (.br .Unauthorized)
  else if b.status ≠ .ACTIVE then .error (.br .InvalidStatus)
  else if msgValue = 0 then .error (.br .InsufficientReward)
  else
    let br2 := { s.br with bounties := aset s.br.bounties bountyId { b with reward := b.reward + msgValue } }
    match EM.increaseDeposit s.em s.brAddr bountyId sender msgValue with
    | .error e => .error (.em e)
    | .ok em2 => .ok { s with br := br2, em := em2 }

/-- `extendDeadline` as an external call. -/
def extendDeadline (s : SysState) (sender bountyId newDeadline ts : Nat) :
    Except SysErr SysState :=
  match BR.extendDeadlineCore s.br sender bountyId newDeadline ts with
  | .error e => .error (.br e)
  | .ok br2 => .ok { s with br := br2 }

/-- `expireBounty(bountyId)`: callable by anyone, Active only, strictly past
the deadline; marks Expired and refunds the creator through the custodian. -/
def expireBounty (s : SysState) (sender bountyId : Nat) (transferOk : Bool)
    (ts : Nat) : Except SysErr SysState :=
  let b := BR.lookupBounty s.br bountyId
  if b.creator = 0 then .error (.br .BountyNotFound)
  else if b.status ≠ .ACTIVE then .error (.br .InvalidStatus)
  else if ts ≤ b.deadline then .error (.br .InvalidDeadline)
  else
    let br2 := { s.br with bounties := aset s.br.bounties bountyId { b with status := .EXPIRED } }
    match EM.refund s.em s.brAddr bountyId transferOk ts with
    | .error e => .error (.em e)
    | .ok (em2, recipient, amount) =>
      .ok { s with br := br2, em := em2, payments := s.payments ++ [(recipient, amount)] }

/-- `incrementSubmissions` as an external call. -/
def incrementSubmissions (s : SysState) (sender bountyId : Nat) :
    Except SysErr SysState :=
  match BR.incrementSubmissionsCore s.br sender bountyId with
  | .error e => .error (.br e)
  | .ok br2 => .ok { s with br := br2 }

/-- `submitData(bountyId, cid, metadata)`: requires the bounty active and a
non-empty cid; records a Pending submission, asks the registry to count it,
and advances the submission to Verifying while requesting verification
(which requires a configured functions consumer). -/
def submitData (s : SysState) (sender bountyId : Nat) (cid metadata : String)
    (ts : Nat) : Except SysErr SysState :=
  if ¬ BR.isBountyActive s.br bountyId ts then .error (.dr .BountyNotActive)
  else if cid = "" then .error (.dr .InvalidCID)
  else
    let subId := s.dr.submissionIdCounter
    let sub : DR.Submission := ⟨subId, bountyId, sender, cid, metadata, .PENDING, ts, 0⟩
    let dr2 : DR.DataState := { s.dr with
      submissionIdCounter := subId + 1,
      submissions := aset s.dr.submissions subId sub,
      bountySubmissions := aset s.dr.bountySubmissions bountyId
        ((alookup s.dr.bountySubmissions bountyId).getD [] ++ [subId]) }
    match BR.incrementSubmissionsCore s.br s.drAddr bountyId with
    | .error e => .error (.br e)
    | .ok br2 =>
      if s.dr.functionsConsumer = 0 then .error (.dr .FunctionsConsumerNotSet)
      else
        .ok { s with
                br := br2,
                dr := { dr2 with
                          submissions := aset dr2.submissions subId
                            { sub with status := .VERIFYING } } }

/-- Modelled from the spec: `handleVerificationResult(submissionId, verified,
data)` of the current DataRegistry.sol is not under src (only its tests in
packages/contracts/test/DataRegistry.test.ts, the payment-flow integration
tests and the DeploySystem wiring that calls its `setEscrowManager` are);
src/unnamed/part_008 is an older variant that pays from the registry's own
balance.  The caller/existence/Verifying guards below follow part_008, which
the current variant shares; the verified path follows the spec: set Verified,
record the verification time, call the Lifecycle Manager's completeBounty,
then the Custodian's release to the contributor, as one logical unit whose
failure reverts the whole callback.  The rejected path sets Rejected and
moves no funds. -/
def handleVerificationResult (s : SysState) (sender submissionId : Nat)
    (verified : Bool) (transferOk : Bool) (ts : Nat) : Except SysErr SysState :=
  if sender ≠ s.dr.functionsConsumer then .error (.dr .Unauthorized)
  else
    let sub := DR.lookupSubmission s.dr submissionId
    if sub.contributor = 0 then .error (.dr .SubmissionNotFound)
    else if sub.status ≠ .VERIFYING then .error (.dr .InvalidStatus)
    else if verified then
      let dr2 : DR.DataState := { s.dr with
        submissions := aset s.dr.submissions submissionId
          { sub with status := .VERIFIED, verifiedAt := ts } }
      match BR.completeBountyCore s.br s.drAddr sub.bountyId sub.contributor sub.cid with
      | .error e => .error (.br e)
      | .ok br2 =>
        match EM.release s.em s.drAddr sub.bountyId sub.contributor transferOk ts with
        | .error e => .error (.em e)
        | .ok (em2, recipient, amount) =>
          .ok { s with
                  br := br2, em := em2, dr := dr2,
                  payments := s.payments ++ [(recipient, amount)] }
    else
      .ok { s with
              dr := { s.dr with
                        submissions := aset s.dr.submissions submissionId
                          { sub with status := .REJECTED, verifiedAt := ts } } }

/-- One external call to the wired system. -/
inductive SysOp where
  | createBounty (sender : Nat) (title description schemaUri : String)
      (deadline maxSubmissions msgValue ts : Nat)
  | cancelBounty (sender bountyId : Nat) (transferOk : Bool) (ts : Nat)
  | completeBounty (sender bountyId winner : Nat) (cid : String)
  | increaseReward (sender bountyId msgValue ts : Nat)
  | extendDeadline (sender bountyId newDeadline ts : Nat)
  | expireBounty (sender bountyId : Nat) (transferOk : Bool) (ts : Nat)
  | incrementSubmissions (sender bountyId : Nat)
  | submitData (sender bountyId : Nat) (cid metadata : String) (ts : Nat)
  | handleVerificationResult (sender submissionId : Nat) (verified transferOk : Bool)
      (ts : Nat)
  | escrowCall (op : EM.EscrowOp)

/-- Outcome of one call (direct custodian calls update only the custodian and
append any performed transfer to the payments ledger). -/
def sysOpResult (s : SysState) : SysOp → Except SysErr SysState
  | .createBounty sender t d u dl mx v ts => createBounty s sender t d u dl mx v ts
  | .cancelBounty sender b tOk ts => cancelBounty s sender b tOk ts
  | .completeBounty sender b w cid => completeBounty s sender b w cid
  | .increaseReward sender b v ts => increaseReward s sender b v ts
  | .extendDeadline sender b nd ts => extendDeadline s sender b nd ts
  | .expireBounty sender b tOk ts => expireBounty s sender b tOk ts
  | .incrementSubmissions sender b => incrementSubmissions s sender b
  | .submitData sender b cid md ts => submitData s sender b cid md ts
  | .handleVerificationResult sender sid v tOk ts =>
    handleVerificationResult s sender sid v tOk ts
  | .escrowCall (.release sender b r tOk ts) =>
    match EM.release s.em sender b r tOk ts with
    | .error e => .error (.em e)
    | .ok (em2, recipient, amount) =>
      .ok { s with em := em2, payments := s.payments ++ [(recipient, amount)] }
  | .escrowCall (.refund sender b tOk ts) =>
    match EM.refund s.em sender b tOk ts with
    | .error e => .error (.em e)
    | .ok (em2, recipient, amount) =>
      .ok { s with em := em2, payments := s.payments ++ [(recipient, amount)] }
  | .escrowCall (.emergencyWithdraw sender b r tOk ts) =>
    match EM.emergencyWithdraw s.em sender b r tOk ts with
    | .error e => .error (.em e)
    | .ok (em2, recipient, amount) =>
      .ok { s with em := em2, payments := s.payments ++ [(recipient, amount)] }
  | .escrowCall op =>
    match EM.opResult s.em op with
    | .error e => .error (.em e)
    | .ok em2 => .ok { s with em := em2 }

/-- State after one call: a revert leaves the state unchanged. -/
def execSys (s : SysState) (op : SysOp) : SysState :=
  match sysOpResult s op with
  | .ok s2 => s2
  | .error _ => s

/-- State after a sequence of calls. -/
def runSys (s : SysState) (ops : List SysOp) : SysState :=
  ops.foldl execSys s

/-- The system as deployed and wired by DeploySystem: BountyRegistry at
address 1, DataRegistry at address 2, FunctionsConsumer at address 3, the
escrow owner at address 4; the custodian authorizes the registries and the
registry knows the custodian and the data registry. -/
def sysInit : SysState :=
  ⟨⟨0, [], 2, true⟩, ⟨[], 0, 0, 0, 1, 2, 4, 0⟩, ⟨0, [], [], 3⟩, [], 1, 2⟩

end Sys

/-- C2: a verified=true callback for a Verifying submission (with the wired
addresses, an existing Active bounty, and a Funded escrow matching the
bounty's reward) succeeds: the submission becomes Verified with the
verification time recorded, the bounty becomes Completed via completeBounty,
the escrow becomes Released via the custodian's release, and the contributor
is paid the bounty's reward amount. -/
theorem C2_verified_callback_pays (s : Sys.SysState) (sender submissionId ts : Nat)
    (hw1 : s.em.dataRegistry = s.drAddr)
    (hw2 : s.br.dataRegistry = s.drAddr)
    (hw3 : s.drAddr ≠ 0)
    (hsender : sender = s.dr.functionsConsumer)
    (hc : (DR.lookupSubmission s.dr submissionId).contributor ≠ 0)
    (hst : (DR.lookupSubmission s.dr submissionId).status = .VERIFYING)
    (hbc : (BR.lookupBounty s.br (DR.lookupSubmission s.dr submissionId).bountyId).creator ≠ 0)
    (hba : (BR.lookupBounty s.br (DR.lookupSubmission s.dr submissionId).bountyId).status = .ACTIVE)
    (hes : (EM.lookupEscrow s.em (DR.lookupSubmission s.dr submissionId).bountyId).status = .FUNDED)
    (ham : (EM.lookupEscrow s.em (DR.lookupSubmission s.dr submissionId).bountyId).amount
        = (BR.lookupBounty s.br (DR.lookupSubmission s.dr submissionId).bountyId).reward) :
    ∃ s2, Sys.handleVerificationResult s sender submissionId true true ts = .ok s2
      ∧ (DR.lookupSubmission s2.dr submissionId).status = .VERIFIED
      ∧ (DR.lookupSubmission s2.dr submissionId).verifiedAt = ts
      ∧ (BR.lookupBounty s2.br (DR.lookupSubmission s.dr submissionId).bountyId).status
          = .COMPLETED
      ∧ (EM.lookupEscrow s2.em (DR.lookupSubmission s.dr submissionId).bountyId).status
          = .RELEASED
      ∧ s2.payments = s.payments
          ++ [((DR.lookupSubmission s.dr submissionId).contributor,
               (BR.lookupBounty s.br (DR.lookupSubmission s.dr submissionId).bountyId).reward)] := by
  have hdr0 : s.br.dataRegistry ≠ 0 := by rw [hw2]; exact hw3
  have hres : Sys.handleVerificationResult s sender submissionId true true ts
      = .ok { s with
          br := { s.br with
            bounties := aset s.br.bounties (DR.lookupSubmission s.dr submissionId).bountyId
              { BR.lookupBounty s.br (DR.lookupSubmission s.dr submissionId).bountyId with
                  status := .COMPLETED } },
          em := { s.em with
            escrows := aset s.em.escrows (DR.lookupSubmission s.dr submissionId).bountyId
              { EM.lookupEscrow s.em (DR.lookupSubmission s.dr submissionId).bountyId with
                  status := .RELEASED, releasedAt := ts },
            totalReleased := s.em.totalReleased
              + (EM.lookupEscrow s.em (DR.lookupSubmission s.dr submissionId).bountyId).amount,
            balance := s.em.balance
              - (EM.lookupEscrow s.em (DR.lookupSubmission s.dr submissionId).bountyId).amount },
          dr := { s.dr with
            submissions := aset s.dr.submissions submissionId
              { DR.lookupSubmission s.dr submissionId with
                  status := .VERIFIED, verifiedAt := ts } },
          payments := s.payments
            ++ [((DR.lookupSubmission s.dr submissionId).contributor,
                 (EM.lookupEscrow s.em (DR.lookupSubmission s.dr submissionId).bountyId).amount)] } := by
    simp [Sys.handleVerificationResult, BR.completeBountyCore, EM.release,
      hsender, hc, hst, hbc, hba, hes, hw1, hw2, hw3, hdr0]
  refine ⟨_, hres, ?_, ?_, ?_, ?_, ?_⟩
  · simp [DR.lookupSubmission, alookup_aset]
  · simp [DR.lookupSubmission, alookup_aset]
  · simp [BR.lookupBounty, alookup_aset]
  · simp [EM.lookupEscrow, alookup_aset]
  · simp [ham]

/-- Witness for C2 at a concrete wired state: submission 0 (contributor 9) is
Verifying against bounty 0 (creator 7, reward 5) with a Funded escrow of 5;
the callback from the functions consumer (address 3) at time 50 succeeds. -/
theorem C2_verified_callback_pays_witness :
    ∃ s2,
      Sys.handleVerificationResult
          ⟨⟨1, [(0, ⟨0, 7, "t", "d", "sch", 5, 100, .ACTIVE, 10, 1, 1⟩)], 2, true⟩,
           ⟨[(0, ⟨0, 7, 5, .FUNDED, 1, 0⟩)], 5, 0, 0, 1, 2, 4, 5⟩,
           ⟨1, [(0, ⟨0, 0, 9, "cid", "md", .VERIFYING, 2, 0⟩)], [(0, [0])], 3⟩,
           [], 1, 2⟩ 3 0 true true 50 = .ok s2
      ∧ (DR.lookupSubmission s2.dr 0).status = .VERIFIED
      ∧ (DR.lookupSubmission s2.dr 0).verifiedAt = 50
      ∧ (BR.lookupBounty s2.br (DR.lookupSubmission
            (⟨⟨1, [(0, ⟨0, 7, "t", "d", "sch", 5, 100, .ACTIVE, 10, 1, 1⟩)], 2, true⟩,
              ⟨[(0, ⟨0, 7, 5, .FUNDED, 1, 0⟩)], 5, 0, 0, 1, 2, 4, 5⟩,
              ⟨1, [(0, ⟨0, 0, 9, "cid", "md", .VERIFYING, 2, 0⟩)], [(0, [0])], 3⟩,
              [], 1, 2⟩ : Sys.SysState).dr 0).bountyId).status = .COMPLETED
      ∧ (EM.lookupEscrow s2.em (DR.lookupSubmission
            (⟨⟨1, [(0, ⟨0, 7, "t", "d", "sch", 5, 100, .ACTIVE, 10, 1, 1⟩)], 2, true⟩,
              ⟨[(0, ⟨0, 7, 5, .FUNDED, 1, 0⟩)], 5, 0, 0, 1, 2, 4, 5⟩,
              ⟨1, [(0, ⟨0, 0, 9, "cid", "md", .VERIFYING, 2, 0⟩)], [(0, [0])], 3⟩,
              [], 1, 2⟩ : Sys.SysState).dr 0).bountyId).status = .RELEASED
      ∧ s2.payments = []
          ++ [((DR.lookupSubmission
                 (⟨⟨1, [(0, ⟨0, 7, "t", "d", "sch", 5, 100, .ACTIVE, 10, 1, 1⟩)], 2, true⟩,
                   ⟨[(0, ⟨0, 7, 5, .FUNDED, 1, 0⟩)], 5, 0, 0, 1, 2, 4, 5⟩,
                   ⟨1, [(0, ⟨0, 0, 9, "cid", "md", .VERIFYING, 2, 0⟩)], [(0, [0])], 3⟩,
                   [], 1, 2⟩ : Sys.SysState).dr 0).contributor,
               (BR.lookupBounty
                 (⟨⟨1, [(0, ⟨0, 7, "t", "d", "sch", 5, 100, .ACTIVE, 10, 1, 1⟩)], 2, true⟩,
                   ⟨[(0, ⟨0, 7, 5, .FUNDED, 1, 0⟩)], 5, 0, 0, 1, 2, 4, 5⟩,
                   ⟨1, [(0, ⟨0, 0, 9, "cid", "md", .VERIFYING, 2, 0⟩)], [(0, [0])], 3⟩,
                   [], 1, 2⟩ : Sys.SysState).br (DR.lookupSubmission
                 (⟨⟨1, [(0, ⟨0, 7, "t", "d", "sch", 5, 100, .ACTIVE, 10, 1, 1⟩)], 2, true⟩,
                   ⟨[(0, ⟨0, 7, 5, .FUNDED, 1, 0⟩)], 5, 0, 0, 1, 2, 4, 5⟩,
                   ⟨1, [(0, ⟨0, 0, 9, "cid", "md", .VERIFYING, 2, 0⟩)], [(0, [0])], 3⟩,
                   [], 1, 2⟩ : Sys.SysState).dr 0).bountyId).reward)] :=
  C2_verified_callback_pays
    ⟨⟨1, [(0, ⟨0, 7, "t", "d", "sch", 5, 100, .ACTIVE, 10, 1, 1⟩)], 2, true⟩,
     ⟨[(0, ⟨0, 7, 5, .FUNDED, 1, 0⟩)], 5, 0, 0, 1, 2, 4, 5⟩,
     ⟨1, [(0, ⟨0, 0, 9, "cid", "md", .VERIFYING, 2, 0⟩)], [(0, [0])], 3⟩,
     [], 1, 2⟩ 3 0 50 rfl rfl (by decide) rfl (by decide) (by decide)
    (by decide) (by decide) (by decide) (by decide)

/-- C3: a callback (from the functions consumer) for an existing submission
whose status is not Verifying — in particular one already resolved Verified
or Rejected — fails with InvalidStatus and changes nothing: the state after
the call is the pre-state and the payments ledger is unchanged, so a second
verdict delivery can never cause a second payment. -/
theorem C3_non_verifying_callback_rejected (s : Sys.SysState)
    (sender submissionId ts : Nat) (verified transferOk : Bool)
    (hsender : sender = s.dr.functionsConsumer)
    (hc : (DR.lookupSubmission s.dr submissionId).contributor ≠ 0)
    (hst : (DR.lookupSubmission s.dr submissionId).status ≠ .VERIFYING) :
    Sys.handleVerificationResult s sender submissionId verified transferOk ts
        = .error (.dr .InvalidStatus)
      ∧ Sys.execSys s
          (.handleVerificationResult sender submissionId verified transferOk ts) = s
      ∧ (Sys.execSys s
          (.handleVerificationResult sender submissionId verified transferOk ts)).payments
        = s.payments := by
  have h1 : Sys.handleVerificationResult s sender submissionId verified transferOk ts
      = .error (.dr .InvalidStatus) := by
    simp [Sys.handleVerificationResult, hsender, hc, hst]
  refine ⟨h1, ?_, ?_⟩ <;> simp [Sys.execSys, Sys.sysOpResult, h1]

/-- Witness for C3 at a concrete state: submission 0 is already Verified; a
second verified=true delivery from the functions consumer fails with
InvalidStatus and leaves the state (and payments) unchanged. -/
theorem C3_non_verifying_callback_rejected_witness :
    Sys.handleVerificationResult
        ⟨⟨1, [(0, ⟨0, 7, "t", "d", "sch", 5, 100, .COMPLETED, 10, 1, 1⟩)], 2, true⟩,
         ⟨[(0, ⟨0, 7, 5, .RELEASED, 1, 50⟩)], 5, 5, 0, 1, 2, 4, 0⟩,
         ⟨1, [(0, ⟨0, 0, 9, "cid", "md", .VERIFIED, 2, 50⟩)], [(0, [0])], 3⟩,
         [(9, 5)], 1, 2⟩ 3 0 true true 60 = .error (.dr .InvalidStatus)
      ∧ Sys.execSys
          ⟨⟨1, [(0, ⟨0, 7, "t", "d", "sch", 5, 100, .COMPLETED, 10, 1, 1⟩)], 2, true⟩,
           ⟨[(0, ⟨0, 7, 5, .RELEASED, 1, 50⟩)], 5, 5, 0, 1, 2, 4, 0⟩,
           ⟨1, [(0, ⟨0, 0, 9, "cid", "md", .VERIFIED, 2, 50⟩)], [(0, [0])], 3⟩,
           [(9, 5)], 1, 2⟩ (.handleVerificationResult 3 0 true true 60)
        = ⟨⟨1, [(0, ⟨0, 7, "t", "d", "sch", 5, 100, .COMPLETED, 10, 1, 1⟩)], 2, true⟩,
           ⟨[(0, ⟨0, 7, 5, .RELEASED, 1, 50⟩)], 5, 5, 0, 1, 2, 4, 0⟩,
           ⟨1, [(0, ⟨0, 0, 9, "cid", "md", .VERIFIED, 2, 50⟩)], [(0, [0])], 3⟩,
           [(9, 5)], 1, 2⟩
      ∧ (Sys.execSys
          ⟨⟨1, [(0, ⟨0, 7, "t", "d", "sch", 5, 100, .COMPLETED, 10, 1, 1⟩)], 2, true⟩,
           ⟨[(0, ⟨0, 7, 5, .RELEASED, 1, 50⟩)], 5, 5, 0, 1, 2, 4, 0⟩,
           ⟨1, [(0, ⟨0, 0, 9, "cid", "md", .VERIFIED, 2, 50⟩)], [(0, [0])], 3⟩,
           [(9, 5)], 1, 2⟩ (.handleVerificationResult 3 0 true true 60)).payments
        = [(9, 5)] :=
  C3_non_verifying_callback_rejected
    ⟨⟨1, [(0, ⟨0, 7, "t", "d", "sch", 5, 100, .COMPLETED, 10, 1, 1⟩)], 2, true⟩,
     ⟨[(0, ⟨0, 7, 5, .RELEASED, 1, 50⟩)], 5, 5, 0, 1, 2, 4, 0⟩,
     ⟨1, [(0, ⟨0, 0, 9, "cid", "md", .VERIFIED, 2, 50⟩)], [(0, [0])], 3⟩,
     [(9, 5)], 1, 2⟩ 3 0 60 true true rfl (by decide) (by decide)

/-! ## Submission cap invariant (C5) -/

/-- Every stored bounty record (and the mapping default) satisfies
`submissionCount ≤ maxSubmissions`. -/
def CapList (l : List (Nat × BR.Bounty)) : Prop :=
  ∀ id : Nat,
    ((alookup l id).getD BR.emptyBounty).submissionCount
      ≤ ((alookup l id).getD BR.emptyBounty).maxSubmissions

theorem capList_aset {l : List (Nat × BR.Bounty)} {k : Nat} {b : BR.Bounty}
    (h : CapList l) (hb : b.submissionCount ≤ b.maxSubmissions) :
    CapList (aset l k b) := by
  intro id
  rw [alookup_aset]
  by_cases hik : id = k
  · simpa [hik] using hb
  · simpa [hik] using h id

/-- The cap invariant on a system state. -/
def CapInv (s : Sys.SysState) : Prop := CapList s.br.bounties

theorem capList_completeBountyCore {br br2 : BR.BountyState} {sender b w : Nat}
    {cid : String} (h : CapList br.bounties)
    (he : BR.completeBountyCore br sender b w cid = .ok br2) :
    CapList br2.bounties := by
  simp only [BR.completeBountyCore] at he
  split_ifs at he with h1 h2 h3 h4 <;> try (exact Except.noConfusion he)
  have heq := Except.ok.inj he
  subst heq
  exact capList_aset h (h b)

theorem capList_incrementSubmissionsCore {br br2 : BR.BountyState} {sender b : Nat}
    (h : CapList br.bounties)
    (he : BR.incrementSubmissionsCore br sender b = .ok br2) :
    CapList br2.bounties := by
  simp only [BR.incrementSubmissionsCore] at he
  split_ifs at he with h1 h2 h3 h4 <;> try (exact Except.noConfusion he)
  have heq := Except.ok.inj he
  subst heq
  exact capList_aset h (by dsimp only; omega)

theorem capList_extendDeadlineCore {br br2 : BR.BountyState} {sender b nd ts : Nat}
    (h : CapList br.bounties)
    (he : BR.extendDeadlineCore br sender b nd ts = .ok br2) :
    CapList br2.bounties := by
  simp only [BR.extendDeadlineCore] at he
  split_ifs at he with h1 h2 h3 h4 h5 <;> try (exact Except.noConfusion he)
  have heq := Except.ok.inj he
  subst heq
  exact capList_aset h (h b)

theorem capInv_execSys (s : Sys.SysState) (op : Sys.SysOp) (h : CapInv s) :
    CapInv (Sys.execSys s op) := by
  cases op with
  | createBounty sender t d u dl mx v ts =>
    cases he : Sys.createBounty s sender t d u dl mx v ts with
    | error e => simp only [Sys.execSys, Sys.sysOpResult, he]; exact h
    | ok s2 =>
      simp only [Sys.execSys, Sys.sysOpResult, he]
      simp only [Sys.createBounty] at he
      split_ifs at he with h1 h2 h3 h4 <;> try (exact Except.noConfusion he)
      cases hd : EM.deposit s.em s.brAddr s.br.bountyIdCounter sender v ts with
      | error e2 => rw [hd] at he; exact Except.noConfusion he
      | ok em2 =>
        rw [hd] at he
        dsimp only at he
        have heq := Except.ok.inj he
        subst heq
        exact capList_aset h (Nat.zero_le _)
  | cancelBounty sender b tOk ts =>
    cases he : Sys.cancelBounty s sender b tOk ts with
    | error e => simp only [Sys.execSys, Sys.sysOpResult, he]; exact h
    | ok s2 =>
      simp only [Sys.execSys, Sys.sysOpResult, he]
      simp only [Sys.cancelBounty] at he
      split_ifs at he with h1 h2 h3 <;> try (exact Except.noConfusion he)
      cases hd : EM.refund s.em s.brAddr b tOk ts with
      | error e2 => rw [hd] at he; exact Except.noConfusion he
      | ok p =>
        obtain ⟨em2, r, a⟩ := p
        rw [hd] at he
        dsimp only at he
        have heq := Except.ok.inj he
        subst heq
        exact capList_aset h (h b)
  | completeBounty sender b w cid =>
    cases he : Sys.completeBounty s sender b w cid with
    | error e => simp only [Sys.execSys, Sys.sysOpResult, he]; exact h
    | ok s2 =>
      simp only [Sys.execSys, Sys.sysOpResult, he]
      simp only [Sys.completeBounty] at he
      cases hd : BR.completeBountyCore s.br sender b w cid with
      | error e2 => rw [hd] at he; exact Except.noConfusion he
      | ok br2 =>
        rw [hd] at he
        dsimp only at he
        have heq := Except.ok.inj he
        subst heq
        exact capList_completeBountyCore h hd
  | increaseReward sender b v ts =>
    cases he : Sys.increaseReward s sender b v ts with
    | error e => simp only [Sys.execSys, Sys.sysOpResult, he]; exact h
    | ok s2 =>
      simp only [Sys.execSys, Sys.sysOpResult, he]
      simp only [Sys.increaseReward] at he
      split_ifs at he with h1 h2 h3 h4 <;> try (exact Except.noConfusion he)
      cases hd : EM.increaseDeposit s.em s.brAddr b sender v with
      | error e2 => rw [hd] at he; exact Except.noConfusion he
      | ok em2 =>
        rw [hd] at he
        dsimp only at he
        have heq := Except.ok.inj he
        subst heq
        exact capList_aset h (h b)
  | extendDeadline sender b nd ts =>
    cases he : Sys.extendDeadline s sender b nd ts with
    | error e => simp only [Sys.execSys, Sys.sysOpResult, he]; exact h
    | ok s2 =>
      simp only [Sys.execSys, Sys.sysOpResult, he]
      simp only [Sys.extendDeadline] at he
      cases hd : BR.extendDeadlineCore s.br sender b nd ts with
      | error e2 => rw [hd] at he; exact Except.noConfusion he
      | ok br2 =>
        rw [hd] at he
        dsimp only at he
        have heq := Except.ok.inj he
        subst heq
        exact capList_extendDeadlineCore h hd
  | expireBounty sender b tOk ts =>
    cases he : Sys.expireBounty s sender b tOk ts with
    | error e => simp only [Sys.execSys, Sys.sysOpResult, he]; exact h
    | ok s2 =>
      simp only [Sys.execSys, Sys.sysOpResult, he]
      simp only [Sys.expireBounty] at he
      split_ifs at he with h1 h2 h3 <;> try (exact Except.noConfusion he)
      cases hd : EM.refund s.em s.brAddr b tOk ts with
      | error e2 => rw [hd] at he; exact Except.noConfusion he
      | ok p =>
        obtain ⟨em2, r, a⟩ := p
        rw [hd] at he
        dsimp only at he
        have heq := Except.ok.inj he
        subst heq
        exact capList_aset h (h b)
  | incrementSubmissions sender b =>
    cases he : Sys.incrementSubmissions s sender b with
    | error e => simp only [Sys.execSys, Sys.sysOpResult, he]; exact h
    | ok s2 =>
      simp only [Sys.execSys, Sys.sysOpResult, he]
      simp only [Sys.incrementSubmissions] at he
      cases hd : BR.incrementSubmissionsCore s.br sender b with
      | error e2 => rw [hd] at he; exact Except.noConfusion he
      | ok br2 =>
        rw [hd] at he
        dsimp only at he
        have heq := Except.ok.inj he
        subst heq
        exact capList_incrementSubmissionsCore h hd
  | submitData sender b cid md ts =>
    cases he : Sys.submitData s sender b cid md ts with
    | error e => simp only [Sys.execSys, Sys.sysOpResult, he]; exact h
    | ok s2 =>
      simp only [Sys.execSys, Sys.sysOpResult, he]
      simp only [Sys.submitData] at he
      cases hd : BR.incrementSubmissionsCore s.br s.drAddr b with
      | error e2 =>
        rw [hd] at he
        dsimp only at he
        split_ifs at he <;> exact Except.noConfusion he
      | ok br2 =>
        rw [hd] at he
        dsimp only at he
        split_ifs at he with h1 h2 h3 <;> try (exact Except.noConfusion he)
        have heq := Except.ok.inj he
        subst heq
        exact capList_incrementSubmissionsCore h hd
  | handleVerificationResult sender sid v tOk ts =>
    cases he : Sys.handleVerificationResult s sender sid v tOk ts with
    | error e => simp only [Sys.execSys, Sys.sysOpResult, he]; exact h
    | ok s2 =>
      simp only [Sys.execSys, Sys.sysOpResult, he]
      simp only [Sys.handleVerificationResult] at he
      split_ifs at he with h1 h2 h3 h4 <;> try (exact Except.noConfusion he)
      · cases hd : BR.completeBountyCore s.br s.drAddr
            (DR.lookupSubmission s.dr sid).bountyId
            (DR.lookupSubmission s.dr sid).contributor
            (DR.lookupSubmission s.dr sid).cid with
        | error e2 => rw [hd] at he; exact Except.noConfusion he
        | ok br2 =>
          rw [hd] at he
          dsimp only at he
          cases hr : EM.release s.em s.drAddr (DR.lookupSubmission s.dr sid).bountyId
              (DR.lookupSubmission s.dr sid).contributor tOk ts with
          | error e3 => rw [hr] at he; exact Except.noConfusion he
          | ok p =>
            obtain ⟨em2, r, a⟩ := p
            rw [hr] at he
            dsimp only at he
            have heq := Except.ok.inj he
            subst heq
            exact capList_completeBountyCore h hd
      · have heq := Except.ok.inj he
        subst heq
        exact h
  | escrowCall eop =>
    cases eop with
    | release sender b r tOk ts =>
      cases hd : EM.release s.em sender b r tOk ts with
      | error e => simp only [Sys.execSys, Sys.sysOpResult, hd]; exact h
      | ok p =>
        obtain ⟨em2, r2, a⟩ := p
        simp only [Sys.execSys, Sys.sysOpResult, hd]
        exact h
    | refund sender b tOk ts =>
      cases hd : EM.refund s.em sender b tOk ts with
      | error e => simp only [Sys.execSys, Sys.sysOpResult, hd]; exact h
      | ok p =>
        obtain ⟨em2, r2, a⟩ := p
        simp only [Sys.execSys, Sys.sysOpResult, hd]
        exact h
    | emergencyWithdraw sender b r tOk ts =>
      cases hd : EM.emergencyWithdraw s.em sender b r tOk ts with
      | error e => simp only [Sys.execSys, Sys.sysOpResult, hd]; exact h
      | ok p =>
        obtain ⟨em2, r2, a⟩ := p
        simp only [Sys.execSys, Sys.sysOpResult, hd]
        exact h
    | deposit sender b d v ts =>
      cases hd : EM.opResult s.em (.deposit sender b d v ts) with
      | error e => simp only [Sys.execSys, Sys.sysOpResult, hd]; exact h
      | ok em2 => simp only [Sys.execSys, Sys.sysOpResult, hd]; exact h
    | increaseDeposit sender b d v =>
      cases hd : EM.opResult s.em (.increaseDeposit sender b d v) with
      | error e => simp only [Sys.execSys, Sys.sysOpResult, hd]; exact h
      | ok em2 => simp only [Sys.execSys, Sys.sysOpResult, hd]; exact h
    | setBountyRegistry sender a =>
      cases hd : EM.opResult s.em (.setBountyRegistry sender a) with
      | error e => simp only [Sys.execSys, Sys.sysOpResult, hd]; exact h
      | ok em2 => simp only [Sys.execSys, Sys.sysOpResult, hd]; exact h
    | setDataRegistry sender a =>
      cases hd : EM.opResult s.em (.setDataRegistry sender a) with
      | error e => simp only [Sys.execSys, Sys.sysOpResult, hd]; exact h
      | ok em2 => simp only [Sys.execSys, Sys.sysOpResult, hd]; exact h
    | receiveEther sender v =>
      cases hd : EM.opResult s.em (.receiveEther sender v) with
      | error e => simp only [Sys.execSys, Sys.sysOpResult, hd]; exact h
      | ok em2 => simp only [Sys.execSys, Sys.sysOpResult, hd]; exact h

theorem capInv_runSys (ops : List Sys.SysOp) (s : Sys.SysState) (h : CapInv s) :
    CapInv (Sys.runSys s ops) := by
  induction ops generalizing s with
  | nil => exact h
  | cons op rest ih =>
    have h1 : Sys.runSys s (op :: rest) = Sys.runSys (Sys.execSys s op) rest := rfl
    rw [h1]
    exact ih _ (capInv_execSys s op h)

/-- C5: over every call sequence from the deployed system, no bounty's
submissionCount ever exceeds its maxSubmissions; moreover a call to
incrementSubmissions (by the configured data registry, on an existing
bounty) fails with MaxSubmissionsReached and changes nothing when the count
has reached the cap, and increments the count by exactly one (cap unchanged)
when it is below the cap. -/
theorem C5_submission_cap_enforced :
    (∀ (ops : List Sys.SysOp) (id : Nat),
      (BR.lookupBounty (Sys.runSys Sys.sysInit ops).br id).submissionCount
        ≤ (BR.lookupBounty (Sys.runSys Sys.sysInit ops).br id).maxSubmissions)
    ∧ (∀ (s : Sys.SysState) (sender id : Nat),
        sender = s.br.dataRegistry →
        s.br.dataRegistry ≠ 0 →
        (BR.lookupBounty s.br id).creator ≠ 0 →
        ((BR.lookupBounty s.br id).maxSubmissions ≤ (BR.lookupBounty s.br id).submissionCount →
          Sys.incrementSubmissions s sender id = .error (.br .MaxSubmissionsReached)
            ∧ Sys.execSys s (.incrementSubmissions sender id) = s)
        ∧ ((BR.lookupBounty s.br id).submissionCount < (BR.lookupBounty s.br id).maxSubmissions →
          ∃ s2, Sys.incrementSubmissions s sender id = .ok s2
            ∧ (BR.lookupBounty s2.br id).submissionCount
                = (BR.lookupBounty s.br id).submissionCount + 1
            ∧ (BR.lookupBounty s2.br id).maxSubmissions
                = (BR.lookupBounty s.br id).maxSubmissions)) := by
  constructor
  · intro ops id
    have hinit : CapInv Sys.sysInit := by
      intro j
      simp [Sys.sysInit, alookup, BR.emptyBounty]
    exact capInv_runSys ops Sys.sysInit hinit id
  · intro s sender id hs hdr hbc
    constructor
    · intro hge
      have herr : Sys.incrementSubmissions s sender id
          = .error (.br .MaxSubmissionsReached) := by
        simp [Sys.incrementSubmissions, BR.incrementSubmissionsCore, hs, hdr, hbc, hge]
      refine ⟨herr, ?_⟩
      simp [Sys.execSys, Sys.sysOpResult, herr]
    · intro hlt
      have hok : Sys.incrementSubmissions s sender id
          = .ok { s with br := { s.br with
              bounties := aset s.br.bounties id
                { BR.lookupBounty s.br id with
                    submissionCount := (BR.lookupBounty s.br id).submissionCount + 1 } } } := by
        simp [Sys.incrementSubmissions, BR.incrementSubmissionsCore, hs, hdr, hbc,
          Nat.not_le.mpr hlt]
      refine ⟨_, hok, ?_, ?_⟩
      · simp [BR.lookupBounty, alookup_aset]
      · simp [BR.lookupBounty, alookup_aset]

/-- Witness for C5 at two concrete states: bounty 0 with count 2 of cap 2 is
rejected with MaxSubmissionsReached and unchanged; bounty 0 with count 1 of
cap 2 is incremented to exactly 2. -/
theorem C5_submission_cap_enforced_witness :
    (Sys.incrementSubmissions
        ⟨⟨1, [(0, ⟨0, 7, "t", "d", "sch", 5, 100, .ACTIVE, 2, 2, 1⟩)], 2, true⟩,
         ⟨[], 0, 0, 0, 1, 2, 4, 0⟩, ⟨0, [], [], 3⟩, [], 1, 2⟩ 2 0
        = .error (.br .MaxSubmissionsReached)
      ∧ Sys.execSys
          ⟨⟨1, [(0, ⟨0, 7, "t", "d", "sch", 5, 100, .ACTIVE, 2, 2, 1⟩)], 2, true⟩,
           ⟨[], 0, 0, 0, 1, 2, 4, 0⟩, ⟨0, [], [], 3⟩, [], 1, 2⟩
          (.incrementSubmissions 2 0)
        = ⟨⟨1, [(0, ⟨0, 7, "t", "d", "sch", 5, 100, .ACTIVE, 2, 2, 1⟩)], 2, true⟩,
           ⟨[], 0, 0, 0, 1, 2, 4, 0⟩, ⟨0, [], [], 3⟩, [], 1, 2⟩)
    ∧ (∃ s2, Sys.incrementSubmissions
          ⟨⟨1, [(0, ⟨0, 7, "t", "d", "sch", 5, 100, .ACTIVE, 2, 1, 1⟩)], 2, true⟩,
           ⟨[], 0, 0, 0, 1, 2, 4, 0⟩, ⟨0, [], [], 3⟩, [], 1, 2⟩ 2 0 = .ok s2
        ∧ (BR.lookupBounty s2.br 0).submissionCount
            = (BR.lookupBounty
                (⟨⟨1, [(0, ⟨0, 7, "t", "d", "sch", 5, 100, .ACTIVE, 2, 1, 1⟩)], 2, true⟩,
                  ⟨[], 0, 0, 0, 1, 2, 4, 0⟩, ⟨0, [], [], 3⟩, [], 1, 2⟩ : Sys.SysState).br 0).submissionCount + 1
        ∧ (BR.lookupBounty s2.br 0).maxSubmissions
            = (BR.lookupBounty
                (⟨⟨1, [(0, ⟨0, 7, "t", "d", "sch", 5, 100, .ACTIVE, 2, 1, 1⟩)], 2, true⟩,
                  ⟨[], 0, 0, 0, 1, 2, 4, 0⟩, ⟨0, [], [], 3⟩, [], 1, 2⟩ : Sys.SysState).br 0).maxSubmissions) :=
  ⟨(C5_submission_cap_enforced.2
      ⟨⟨1, [(0, ⟨0, 7, "t", "d", "sch", 5, 100, .ACTIVE, 2, 2, 1⟩)], 2, true⟩,
       ⟨[], 0, 0, 0, 1, 2, 4, 0⟩, ⟨0, [], [], 3⟩, [], 1, 2⟩ 2 0 rfl (by decide)
       (by decide)).1 (by decide),
   (C5_submission_cap_enforced.2
      ⟨⟨1, [(0, ⟨0, 7, "t", "d", "sch", 5, 100, .ACTIVE, 2, 1, 1⟩)], 2, true⟩,
       ⟨[], 0, 0, 0, 1, 2, 4, 0⟩, ⟨0, [], [], 3⟩, [], 1, 2⟩ 2 0 rfl (by decide)
       (by decide)).2 (by decide)⟩

/-! ## Terminal-status immutability (C6) -/

theorem cancelBounty_terminal {s : Sys.SysState} {id : Nat}
    (hbc : (BR.lookupBounty s.br id).creator ≠ 0)
    (hterm : (BR.lookupBounty s.br id).status ≠ .ACTIVE)
    (sender : Nat) (tOk : Bool) (ts : Nat) :
    Sys.cancelBounty s sender id tOk ts
      = if sender ≠ (BR.lookupBounty s.br id).creator
        then .error (.br .Unauthorized) else .error (.br .InvalidStatus) := by
  by_cases hs : sender ≠ (BR.lookupBounty s.br id).creator <;>
    simp [Sys.cancelBounty, hbc, hterm, hs]

theorem completeBounty_terminal {s : Sys.SysState} {id : Nat}
    (hbc : (BR.lookupBounty s.br id).creator ≠ 0)
    (hterm : (BR.lookupBounty s.br id).status ≠ .ACTIVE)
    (sender w : Nat) (cid : String) :
    Sys.completeBounty s sender id w cid
      = if s.br.dataRegistry = 0 then .error (.br .DataRegistryNotSet)
        else if sender ≠ s.br.dataRegistry then .error (.br .Unauthorized)
        else .error (.br .InvalidStatus) := by
  by_cases h0 : s.br.dataRegistry = 0 <;>
    by_cases hs : sender ≠ s.br.dataRegistry <;>
      simp [Sys.completeBounty, BR.completeBountyCore, hbc, hterm, h0, hs]

theorem increaseReward_terminal {s : Sys.SysState} {id : Nat}
    (hbc : (BR.lookupBounty s.br id).creator ≠ 0)
    (hterm : (BR.lookupBounty s.br id).status ≠ .ACTIVE)
    (sender v ts : Nat) :
    Sys.increaseReward s sender id v ts
      = if sender ≠ (BR.lookupBounty s.br id).creator
        then .error (.br .Unauthorized) else .error (.br .InvalidStatus) := by
  by_cases hs : sender ≠ (BR.lookupBounty s.br id).creator <;>
    simp [Sys.increaseReward, hbc, hterm, hs]

theorem extendDeadline_terminal {s : Sys.SysState} {id : Nat}
    (hbc : (BR.lookupBounty s.br id).creator ≠ 0)
    (hterm : (BR.lookupBounty s.br id).status ≠ .ACTIVE)
    (sender nd ts : Nat) :
    Sys.extendDeadline s sender id nd ts
      = if sender ≠ (BR.lookupBounty s.br id).creator
        then .error (.br .Unauthorized) else .error (.br .InvalidStatus) := by
  by_cases hs : sender ≠ (BR.lookupBounty s.br id).creator <;>
    simp [Sys.extendDeadline, BR.extendDeadlineCore, hbc, hterm, hs]

theorem expireBounty_terminal {s : Sys.SysState} {id : Nat}
    (hbc : (BR.lookupBounty s.br id).creator ≠ 0)
    (hterm : (BR.lookupBounty s.br id).status ≠ .ACTIVE)
    (sender : Nat) (tOk : Bool) (ts : Nat) :
    Sys.expireBounty s sender id tOk ts = .error (.br .InvalidStatus) := by
  simp [Sys.expireBounty, hbc, hterm]

theorem release_terminal {em : EM.EscrowState} {id : Nat}
    (hterm : (EM.lookupEscrow em id).status ≠ .FUNDED)
    (sender r : Nat) (tOk : Bool) (ts : Nat) :
    EM.release em sender id r tOk ts
      = if sender ≠ em.dataRegistry then .error .Unauthorized
        else if r = 0 then .error .InvalidAddress
        else .error .InvalidEscrowStatus := by
  by_cases hs : sender ≠ em.dataRegistry <;> by_cases hr : r = 0 <;>
    simp [EM.release, hterm, hs, hr]

theorem refund_terminal {em : EM.EscrowState} {id : Nat}
    (hterm : (EM.lookupEscrow em id).status ≠ .FUNDED)
    (sender : Nat) (tOk : Bool) (ts : Nat) :
    EM.refund em sender id tOk ts
      = if sender ≠ em.bountyRegistry then .error .Unauthorized
        else .error .InvalidEscrowStatus := by
  by_cases hs : sender ≠ em.bountyRegistry <;>
    simp [EM.refund, hterm, hs]

theorem increaseDeposit_terminal {em : EM.EscrowState} {id : Nat}
    (hterm : (EM.lookupEscrow em id).status ≠ .FUNDED)
    (sender d v : Nat) :
    EM.increaseDeposit em sender id d v
      = if sender ≠ em.bountyRegistry then .error .Unauthorized
        else if v = 0 then .error .InvalidAmount
        else .error .InvalidEscrowStatus := by
  by_cases hs : sender ≠ em.bountyRegistry <;> by_cases hv : v = 0 <;>
    simp [EM.increaseDeposit, hterm, hs, hv]

theorem emergencyWithdraw_terminal {em : EM.EscrowState} {id : Nat}
    (hterm : (EM.lookupEscrow em id).status ≠ .FUNDED)
    (sender r : Nat) (tOk : Bool) (ts : Nat) :
    EM.emergencyWithdraw em sender id r tOk ts
      = if sender ≠ em.owner then .error .Unauthorized
        else if r = 0 then .error .InvalidAddress
        else .error .InvalidEscrowStatus := by
  by_cases hs : sender ≠ em.owner <;> by_cases hr : r = 0 <;>
    simp [EM.emergencyWithdraw, hterm, hs, hr]

/-- C6: once a bounty is Completed, Cancelled or Expired, every mutating
registry call on it (cancelBounty, completeBounty, increaseReward,
extendDeadline, expireBounty) fails and leaves the state unchanged, and with
the right caller the failure is exactly InvalidStatus; once an escrow is
Released or Refunded, every mutating custodian call on it (release, refund,
increaseDeposit, emergencyWithdraw) fails and leaves the state unchanged,
and with the right caller (and well-formed arguments) the failure is exactly
InvalidEscrowStatus.  In particular no such call ever changes a terminal
status. -/
theorem C6_terminal_status_immutable :
    (∀ (s : Sys.SysState) (id : Nat),
      (BR.lookupBounty s.br id).creator ≠ 0 →
      ((BR.lookupBounty s.br id).status = .COMPLETED
        ∨ (BR.lookupBounty s.br id).status = .CANCELLED
        ∨ (BR.lookupBounty s.br id).status = .EXPIRED) →
      (∀ (sender : Nat) (tOk : Bool) (ts : Nat),
          (∃ e, Sys.cancelBounty s sender id tOk ts = .error e)
          ∧ Sys.execSys s (.cancelBounty sender id tOk ts) = s
          ∧ (sender = (BR.lookupBounty s.br id).creator →
              Sys.cancelBounty s sender id tOk ts = .error (.br .InvalidStatus)))
      ∧ (∀ (sender w : Nat) (cid : String),
          (∃ e, Sys.completeBounty s sender id w cid = .error e)
          ∧ Sys.execSys s (.completeBounty sender id w cid) = s
          ∧ (s.br.dataRegistry ≠ 0 → sender = s.br.dataRegistry →
              Sys.completeBounty s sender id w cid = .error (.br .InvalidStatus)))
      ∧ (∀ (sender v ts : Nat),
          (∃ e, Sys.increaseReward s sender id v ts = .error e)
          ∧ Sys.execSys s (.increaseReward sender id v ts) = s
          ∧ (sender = (BR.lookupBounty s.br id).creator →
              Sys.increaseReward s sender id v ts = .error (.br .InvalidStatus)))
      ∧ (∀ (sender nd ts : Nat),
          (∃ e, Sys.extendDeadline s sender id nd ts = .error e)
          ∧ Sys.execSys s (.extendDeadline sender id nd ts) = s
          ∧ (sender = (BR.lookupBounty s.br id).creator →
              Sys.extendDeadline s sender id nd ts = .error (.br .InvalidStatus)))
      ∧ (∀ (sender : Nat) (tOk : Bool) (ts : Nat),
          Sys.expireBounty s sender id tOk ts = .error (.br .InvalidStatus)
          ∧ Sys.execSys s (.expireBounty sender id tOk ts) = s))
    ∧ (∀ (em : EM.EscrowState) (id : Nat),
      ((EM.lookupEscrow em id).status = .RELEASED
        ∨ (EM.lookupEscrow em id).status = .REFUNDED) →
      (∀ (sender r : Nat) (tOk : Bool) (ts : Nat),
          (∃ e, EM.release em sender id r tOk ts = .error e)
          ∧ EM.execOp em (.release sender id r tOk ts) = em
          ∧ (sender = em.dataRegistry → r ≠ 0 →
              EM.release em sender id r tOk ts = .error .InvalidEscrowStatus))
      ∧ (∀ (sender : Nat) (tOk : Bool) (ts : Nat),
          (∃ e, EM.refund em sender id tOk ts = .error e)
          ∧ EM.execOp em (.refund sender id tOk ts) = em
          ∧ (sender = em.bountyRegistry →
              EM.refund em sender id tOk ts = .error .InvalidEscrowStatus))
      ∧ (∀ (sender d v : Nat),
          (∃ e, EM.increaseDeposit em sender id d v = .error e)
          ∧ EM.execOp em (.increaseDeposit sender id d v) = em
          ∧ (sender = em.bountyRegistry → v ≠ 0 →
              EM.increaseDeposit em sender id d v = .error .InvalidEscrowStatus))
      ∧ (∀ (sender r : Nat) (tOk : Bool) (ts : Nat),
          (∃ e, EM.emergencyWithdraw em sender id r tOk ts = .error e)
          ∧ EM.execOp em (.emergencyWithdraw sender id r tOk ts) = em
          ∧ (sender = em.owner → r ≠ 0 →
              EM.emergencyWithdraw em sender id r tOk ts = .error .InvalidEscrowStatus))) := by
  constructor
  · intro s id hbc hst
    have hterm : (BR.lookupBounty s.br id).status ≠ .ACTIVE := by
      rcases hst with h | h | h <;> simp [h]
    refine ⟨?_, ?_, ?_, ?_, ?_⟩
    · intro sender tOk ts
      refine ⟨?_, ?_, ?_⟩
      · rw [cancelBounty_terminal hbc hterm]
        split_ifs <;> exact ⟨_, rfl⟩
      · simp only [Sys.execSys, Sys.sysOpResult, cancelBounty_terminal hbc hterm]
        split_ifs <;> rfl
      · intro hs
        rw [cancelBounty_terminal hbc hterm, if_neg (not_not.mpr hs)]
    · intro sender w cid
      refine ⟨?_, ?_, ?_⟩
      · rw [completeBounty_terminal hbc hterm]
        split_ifs <;> exact ⟨_, rfl⟩
      · simp only [Sys.execSys, Sys.sysOpResult, completeBounty_terminal hbc hterm]
        split_ifs <;> rfl
      · intro h0 hs
        rw [completeBounty_terminal hbc hterm, if_neg h0, if_neg (not_not.mpr hs)]
    · intro sender v ts
      refine ⟨?_, ?_, ?_⟩
      · rw [increaseReward_terminal hbc hterm]
        split_ifs <;> exact ⟨_, rfl⟩
      · simp only [Sys.execSys, Sys.sysOpResult, increaseReward_terminal hbc hterm]
        split_ifs <;> rfl
      · intro hs
        rw [increaseReward_terminal hbc hterm, if_neg (not_not.mpr hs)]
    · intro sender nd ts
      refine ⟨?_, ?_, ?_⟩
      · rw [extendDeadline_terminal hbc hterm]
        split_ifs <;> exact ⟨_, rfl⟩
      · simp only [Sys.execSys, Sys.sysOpResult, extendDeadline_terminal hbc hterm]
        split_ifs <;> rfl
      · intro hs
        rw [extendDeadline_terminal hbc hterm, if_neg (not_not.mpr hs)]
    · intro sender tOk ts
      refine ⟨expireBounty_terminal hbc hterm sender tOk ts, ?_⟩
      simp only [Sys.execSys, Sys.sysOpResult, expireBounty_terminal hbc hterm]
  · intro em id hst
    have hterm : (EM.lookupEscrow em id).status ≠ .FUNDED := by
      rcases hst with h | h <;> simp [h]
    refine ⟨?_, ?_, ?_, ?_⟩
    · intro sender r tOk ts
      refine ⟨?_, ?_, ?_⟩
      · rw [release_terminal hterm]
        split_ifs <;> exact ⟨_, rfl⟩
      · simp only [EM.execOp, EM.opResult, release_terminal hterm]
        split_ifs <;> rfl
      · intro hs hr
        rw [release_terminal hterm, if_neg (not_not.mpr hs), if_neg hr]
    · intro sender tOk ts
      refine ⟨?_, ?_, ?_⟩
      · rw [refund_terminal hterm]
        split_ifs <;> exact ⟨_, rfl⟩
      · simp only [EM.execOp, EM.opResult, refund_terminal hterm]
        split_ifs <;> rfl
      · intro hs
        rw [refund_terminal hterm, if_neg (not_not.mpr hs)]
    · intro sender d v
      refine ⟨?_, ?_, ?_⟩
      · rw [increaseDeposit_terminal hterm]
        split_ifs <;> exact ⟨_, rfl⟩
      · simp only [EM.execOp, EM.opResult, increaseDeposit_terminal hterm]
        split_ifs <;> rfl
      · intro hs hv
        rw [increaseDeposit_terminal hterm, if_neg (not_not.mpr hs), if_neg hv]
    · intro sender r tOk ts
      refine ⟨?_, ?_, ?_⟩
      · rw [emergencyWithdraw_terminal hterm]
        split_ifs <;> exact ⟨_, rfl⟩
      · simp only [EM.execOp, EM.opResult, emergencyWithdraw_terminal hterm]
        split_ifs <;> rfl
      · intro hs hr
        rw [emergencyWithdraw_terminal hterm, if_neg (not_not.mpr hs), if_neg hr]

/-- Witness for C6 at concrete states: cancelling the Completed bounty 0 by
its creator 7 fails with InvalidStatus, and releasing the Released escrow 0
by the data registry (address 2) fails with InvalidEscrowStatus. -/
theorem C6_terminal_status_immutable_witness :
    Sys.cancelBounty
        ⟨⟨1, [(0, ⟨0, 7, "t", "d", "sch", 5, 100, .COMPLETED, 10, 1, 1⟩)], 2, true⟩,
         ⟨[], 0, 0, 0, 1, 2, 4, 0⟩, ⟨0, [], [], 3⟩, [], 1, 2⟩ 7 0 true 60
        = .error (.br .InvalidStatus)
      ∧ EM.release ⟨[(0, ⟨0, 7, 5, .RELEASED, 1, 50⟩)], 5, 5, 0, 1, 2, 4, 0⟩ 2 0 9 true 60
        = .error .InvalidEscrowStatus :=
  ⟨((C6_terminal_status_immutable.1
      ⟨⟨1, [(0, ⟨0, 7, "t", "d", "sch", 5, 100, .COMPLETED, 10, 1, 1⟩)], 2, true⟩,
       ⟨[], 0, 0, 0, 1, 2, 4, 0⟩, ⟨0, [], [], 3⟩, [], 1, 2⟩ 0 (by decide)
      (Or.inl (by decide))).1 7 true 60).2.2 (by decide),
   ((C6_terminal_status_immutable.2
      ⟨[(0, ⟨0, 7, 5, .RELEASED, 1, 50⟩)], 5, 5, 0, 1, 2, 4, 0⟩ 0
      (Or.inl (by decide))).1 2 9 true 60).2.2 rfl (by decide)⟩

/-! ## FunctionsConsumer (packages/contracts/contracts/FunctionsConsumer.sol)

The dispatcher: stores the `requestId => submissionId` mapping when a request
is sent and consumes it in the DON callback.  Request tokens (bytes32) are
modelled as Nat; the DON response is `none` for empty bytes or `some v` for
an abi-encoded uint256 `v`; `errLen` is the length of the error bytes. -/

namespace FC

structure FCState where
  requestIdToSubmission : List (Nat × Nat)
deriving DecidableEq, Repr

inductive FCErr where
  | UnexpectedRequestID (requestId : Nat)
  | InvalidArguments
deriving DecidableEq, Repr

/-- Mapping delete (`delete requestIdToSubmission[requestId]`). -/
def adel (l : List (Nat × Nat)) (k : Nat) : List (Nat × Nat) :=
  l.filter (fun p => p.1 != k)

/-- `requestVerification(submissionId, cid, schemaUri)`: requires non-empty
cid and schemaUri, sends the request (the fresh `requestId` returned by the
router is an input of the model) and stores `requestId => submissionId`. -/
def requestVerification (s : FCState) (submissionId : Nat) (cid schemaUri : String)
    (requestId : Nat) : Except FCErr FCState :=
  if cid = "" || schemaUri = "" then .error .InvalidArguments
  else .ok { s with
    requestIdToSubmission := aset s.requestIdToSubmission requestId submissionId }

/-- `fulfillRequest(requestId, response, err)`: looks the submission up from
the stored mapping (a missing key reads the zero default), reverts with
UnexpectedRequestID when the lookup yields 0, decodes the verdict (non-empty
error-free response whose decoded value is 1), forwards it to the
DataRegistry (the returned pair is the forwarded call) and deletes the
mapping entry. -/
def fulfillRequest (s : FCState) (requestId : Nat) (response : Option Nat)
    (errLen : Nat) : Except FCErr (FCState × Nat × Bool) :=
  let submissionId := (alookup s.requestIdToSubmission requestId).getD 0
  if submissionId = 0 then .error (.UnexpectedRequestID requestId)
  else
    let verified := match response with
      | some v => decide (errLen = 0) && decide (v = 1)
      | none => false
    .ok ({ s with requestIdToSubmission := adel s.requestIdToSubmission requestId },
      submissionId, verified)

end FC

/-- C9 failing input: the dispatcher uses `submissionId == 0` as the
unknown-token sentinel, but submission identifiers start at 0 (the
DataRegistry's counter is post-incremented from 0, and its first submission
has id 0).  A token stored by requestVerification for submission 0 is
therefore rejected by fulfillRequest with UnexpectedRequestID even though it
is in the stored mapping and unconsumed, so the verdict for the first
submission can never be delivered — contradicting the claim (and the spec)
that only unknown tokens are rejected. -/
theorem C9_stored_token_for_submission_zero_rejected :
    FC.requestVerification ⟨[]⟩ 0 "QmData" "QmSchema" 7 = .ok ⟨[(7, 0)]⟩
      ∧ alookup (FC.FCState.mk [(7, 0)]).requestIdToSubmission 7 = some 0
      ∧ FC.fulfillRequest ⟨[(7, 0)]⟩ 7 (some 1) 0
          = .error (.UnexpectedRequestID 7) := by
  refine ⟨?_, ?_, ?_⟩
  · simp [FC.requestVerification, aset]
  · simp [alookup, List.find?]
  · simp [FC.fulfillRequest, alookup, List.find?]
